import Mathlib

/-!
Verification of the sweetiebot configuration layer (src/sweetiebot/BotConfig.go
and the configuration command module) against its natural-language specification.

The Go code is shallowly embedded: Go maps become association lists carrying an
explicit nil flag (Go distinguishes nil maps from empty ones), machine integers
become `Int` with the `strconv.ParseInt` 64-bit range check made explicit, and
`float32` option values become exact decimal numbers `DecFloat` (every float32
is an exact decimal; `fmt.Sprint` prints the shortest decimal form, which our
format mirrors for the plain-notation range all configuration values live in).
External collaborators (Discord role/channel/user resolution, the database,
role creation) are passed in as explicit function parameters, matching the
specification's Directory / SecondaryStore interfaces.
-/

namespace SB

/-! ## Go-style decimal number formatting and parsing (strconv / fmt) -/

/-- The ASCII digit character for `d < 10` (Go writes bytes `'0'+d`). -/
def digitChar (d : Nat) : Char := Char.ofNat (48 + d)

/-- Fuel-driven digit emitter (structural recursion so the kernel can evaluate it;
the fuel is always sufficient when `n < fuel`). -/
def natToCharsFuel : Nat → Nat → List Char
  | 0, _ => []
  | fuel + 1, n =>
    if n < 10 then [digitChar n]
    else natToCharsFuel fuel (n / 10) ++ [digitChar (n % 10)]

/-- Decimal digits of `n`, most significant first, as Go's strconv emits them. -/
def natToChars (n : Nat) : List Char := natToCharsFuel (n + 1) n

theorem natToCharsFuel_irrel :
    ∀ n f₁ f₂, n < f₁ → n < f₂ → natToCharsFuel f₁ n = natToCharsFuel f₂ n := by
  intro n
  induction n using Nat.strong_induction_on with
  | _ n ih =>
    intro f₁ f₂ h₁ h₂
    match f₁, f₂ with
    | g₁ + 1, g₂ + 1 =>
      simp only [natToCharsFuel]
      by_cases hn : n < 10
      · simp [hn]
      · simp only [if_neg hn]
        have hlt : n / 10 < n := Nat.div_lt_self (by omega) (by omega)
        rw [ih (n / 10) hlt g₁ g₂ (by omega) (by omega)]

/-- Unfolding equation for `natToChars` matching the Go digit loop. -/
theorem natToChars_eq (n : Nat) :
    natToChars n =
      if n < 10 then [digitChar n] else natToChars (n / 10) ++ [digitChar (n % 10)] := by
  show natToCharsFuel (n + 1) n = _
  rw [natToCharsFuel]
  by_cases hn : n < 10
  · simp [hn]
  · rw [if_neg hn, if_neg hn]
    have hlt : n / 10 < n := Nat.div_lt_self (by omega) (by omega)
    rw [natToCharsFuel_irrel (n / 10) n (n / 10 + 1) hlt (by omega)]
    rfl

def natToString (n : Nat) : String := ⟨natToChars n⟩

/-- `strconv.Itoa` / `fmt.Sprint` of a Go integer. -/
def intToString (m : Int) : String :=
  if m < 0 then "-" ++ natToString m.natAbs else natToString m.natAbs

/-- The value of an ASCII digit character, `none` for non-digits. -/
def charDigit (c : Char) : Option Nat :=
  if '0' ≤ c ∧ c ≤ '9' then some (c.toNat - 48) else none

/-- Accumulating base-10 reader over a character list; fails on a non-digit. -/
def parseNatAux : List Char → Nat → Option Nat
  | [], acc => some acc
  | c :: cs, acc =>
    match charDigit c with
    | some d => parseNatAux cs (acc * 10 + d)
    | none => none

/-- Base-10 read of a nonempty all-digit character list. -/
def parseNatChars (cs : List Char) : Option Nat :=
  match cs with
  | [] => none
  | _ => parseNatAux cs 0

theorem charDigit_digitChar {d : Nat} (h : d < 10) : charDigit (digitChar d) = some d := by
  interval_cases d <;> decide

theorem digitChar_ne_dot {d : Nat} (h : d < 10) : digitChar d ≠ '.' := by
  interval_cases d <;> decide

theorem digitChar_isDigit {d : Nat} (h : d < 10) : charDigit (digitChar d) ≠ none := by
  rw [charDigit_digitChar h]; simp

theorem natToChars_ne_nil (n : Nat) : natToChars n ≠ [] := by
  rw [natToChars_eq]
  split <;> simp

theorem natToChars_digits (n : Nat) : ∀ c ∈ natToChars n, charDigit c ≠ none := by
  induction n using Nat.strong_induction_on with
  | _ n ih =>
    rw [natToChars_eq]
    split
    · intro c hc
      simp only [List.mem_singleton] at hc
      subst hc
      exact digitChar_isDigit (by omega)
    · intro c hc
      rcases List.mem_append.mp hc with h1 | h2
      · exact ih (n / 10) (Nat.div_lt_self (by omega) (by omega)) c h1
      · simp only [List.mem_singleton] at h2
        subst h2
        exact digitChar_isDigit (Nat.mod_lt _ (by omega))

theorem parseNatAux_append (l₁ l₂ : List Char) (acc : Nat) :
    parseNatAux (l₁ ++ l₂) acc =
      match parseNatAux l₁ acc with
      | some m => parseNatAux l₂ m
      | none => none := by
  induction l₁ generalizing acc with
  | nil => simp [parseNatAux]
  | cons c cs ih =>
    simp only [List.cons_append, parseNatAux]
    cases charDigit c with
    | some d => exact ih _
    | none => rfl

theorem parseNatAux_natToChars (n : Nat) :
    ∀ acc, parseNatAux (natToChars n) acc = some (acc * 10 ^ (natToChars n).length + n) := by
  induction n using Nat.strong_induction_on with
  | _ n ih =>
    intro acc
    rw [natToChars_eq]
    split
    · simp [parseNatAux, charDigit_digitChar (by omega : n < 10)]
    · rename_i h
      rw [parseNatAux_append]
      rw [ih (n / 10) (Nat.div_lt_self (by omega) (by omega)) acc]
      simp only [parseNatAux, charDigit_digitChar (Nat.mod_lt n (by omega) : n % 10 < 10)]
      simp only [List.length_append, List.length_cons, List.length_nil]
      congr 1
      have hdm : 10 * (n / 10) + n % 10 = n := Nat.div_add_mod n 10
      ring_nf
      omega

theorem parseNatChars_eq_aux (l : List Char) (h : l ≠ []) : parseNatChars l = parseNatAux l 0 := by
  cases l with
  | nil => exact absurd rfl h
  | cons c cs => rfl

theorem parseNatChars_natToChars (n : Nat) : parseNatChars (natToChars n) = some n := by
  rw [parseNatChars_eq_aux _ (natToChars_ne_nil n), parseNatAux_natToChars n 0]
  simp

theorem natToChars_length_le : ∀ k n, 1 ≤ k → n < 10 ^ k → (natToChars n).length ≤ k := by
  intro k n
  induction n using Nat.strong_induction_on generalizing k with
  | _ n ih =>
    intro hk hn
    rw [natToChars_eq]
    by_cases h10 : n < 10
    · simpa [h10] using hk
    · rw [if_neg h10]
      have hk2 : 2 ≤ k := by
        by_contra hcon
        have hk1 : k = 1 := by omega
        subst hk1
        simp at hn
        omega
      have hdiv : n / 10 < 10 ^ (k - 1) := by
        rw [Nat.div_lt_iff_lt_mul (by omega : 0 < 10)]
        have : 10 ^ (k - 1) * 10 = 10 ^ k := by
          rw [← pow_succ]
          congr 1
          omega
        omega
      have := ih (n / 10) (Nat.div_lt_self (by omega) (by omega)) (k - 1) (by omega) hdiv
      simp only [List.length_append, List.length_cons, List.length_nil]
      omega

theorem parseNatAux_replicate_zero : ∀ z acc, parseNatAux (List.replicate z '0') acc = some (acc * 10 ^ z) := by
  intro z
  induction z with
  | zero => simp [parseNatAux]
  | succ z ih =>
    intro acc
    rw [List.replicate_succ]
    show parseNatAux ('0' :: List.replicate z '0') acc = _
    simp only [parseNatAux, show charDigit '0' = some 0 from by decide]
    rw [ih]
    congr 1
    ring

theorem takeWhile_append_stop {p : Char → Bool} (l : List Char) (c : Char) (r : List Char)
    (hl : ∀ x ∈ l, p x = true) (hc : p c = false) :
    ((l ++ c :: r).takeWhile p) = l := by
  induction l with
  | nil => simp [List.takeWhile_cons, hc]
  | cons a as ih =>
    have ha : p a = true := hl a (by simp)
    rw [List.cons_append, List.takeWhile_cons, if_pos ha,
      ih fun x hx => hl x (by simp [hx])]

theorem dropWhile_append_stop {p : Char → Bool} (l : List Char) (c : Char) (r : List Char)
    (hl : ∀ x ∈ l, p x = true) (hc : p c = false) :
    ((l ++ c :: r).dropWhile p) = c :: r := by
  induction l with
  | nil => simp [List.dropWhile_cons, hc]
  | cons a as ih =>
    have ha : p a = true := hl a (by simp)
    rw [List.cons_append, List.dropWhile_cons, if_pos ha,
      ih fun x hx => hl x (by simp [hx])]

theorem takeWhile_eq_self_of_all {p : Char → Bool} (l : List Char) (hl : ∀ x ∈ l, p x = true) :
    l.takeWhile p = l := by
  induction l with
  | nil => rfl
  | cons a as ih =>
    have ha : p a = true := hl a (by simp)
    rw [List.takeWhile_cons, if_pos ha, ih fun x hx => hl x (by simp [hx])]

theorem dropWhile_eq_nil_of_all {p : Char → Bool} (l : List Char) (hl : ∀ x ∈ l, p x = true) :
    l.dropWhile p = [] := by
  induction l with
  | nil => rfl
  | cons a as ih =>
    have ha : p a = true := hl a (by simp)
    rw [List.dropWhile_cons, if_pos ha]
    exact ih fun x hx => hl x (by simp [hx])

theorem natToChars_not_dot (n : Nat) : ∀ c ∈ natToChars n, (c != '.') = true := by
  intro c hc
  have hd := natToChars_digits n c hc
  simp only [bne_iff_ne, ne_eq]
  intro h
  subst h
  exact hd (by decide)

theorem natToChars_not_minus (n : Nat) (c : Char) (cs : List Char)
    (h : natToChars n = c :: cs) : c ≠ '-' ∧ c ≠ '+' := by
  have hd := natToChars_digits n c (by rw [h]; simp)
  constructor <;> (intro he; subst he; exact hd (by decide))

/-- Go `strconv.Quote` restricted to the plain strings configuration values use. -/
def goQuote (s : String) : String := "\"" ++ s ++ "\""

/-- Strip an optional leading sign, as Go's strconv readers do. -/
def stripSign (cs : List Char) : Int × List Char :=
  match cs with
  | c :: t => if c = '-' then (-1, t) else if c = '+' then (1, t) else (1, c :: t)
  | [] => (1, [])

/-- Go `strconv.ParseInt(s, 10, 64)` (used by `setConfigValue` for integer options):
optional sign, decimal digits, 64-bit range check; errors carry Go's message text. -/
def goParseInt (s : String) : Except String Int :=
  let sd := stripSign s.data
  match parseNatChars sd.2 with
  | none => .error ("strconv.ParseInt: parsing " ++ goQuote s ++ ": invalid syntax")
  | some n =>
    if (sd.1 * n : Int) < -(2 ^ 63) ∨ (2 ^ 63 : Int) ≤ sd.1 * n then
      .error ("strconv.ParseInt: parsing " ++ goQuote s ++ ": value out of range")
    else .ok (sd.1 * n)

/-- A `float32` configuration value, represented as the exact decimal `m / 10 ^ e`
(every float32 is an exact decimal number; the claims' values are small decimals). -/
structure DecFloat where
  m : Int
  e : Nat
deriving DecidableEq, Repr

/-- Left-pad a digit string with zeros to `k` characters. -/
def padZeros (cs : List Char) (k : Nat) : List Char :=
  List.replicate (k - cs.length) '0' ++ cs

/-- `fmt.Sprint` of a float32 config value in the plain decimal range
(Go prints the shortest decimal that reparses to the same float; on our exact
decimal representation this is the exact decimal expansion). -/
def fmtDecFloat (v : DecFloat) : String :=
  if v.e = 0 then intToString v.m
  else
    ⟨(if v.m < 0 then ['-'] else []) ++ natToChars (v.m.natAbs / 10 ^ v.e) ++
      '.' :: padZeros (natToChars (v.m.natAbs % 10 ^ v.e)) v.e⟩

/-- Go `strconv.ParseFloat(s, 32)` restricted to plain decimal notation
(optional sign, digits, optional fractional part; the exponent/inf/hex forms Go
also accepts are outside the configuration vocabulary). -/
def goParseFloat (s : String) : Except String DecFloat :=
  let err : Except String DecFloat :=
    .error ("strconv.ParseFloat: parsing " ++ goQuote s ++ ": invalid syntax")
  let sd := stripSign s.data
  let ip := sd.2.takeWhile (· != '.')
  match sd.2.dropWhile (· != '.') with
  | [] =>
    match parseNatChars sd.2 with
    | none => err
    | some n => .ok ⟨sd.1 * n, 0⟩
  | _ :: fp =>
    if ip.isEmpty && fp.isEmpty then err
    else
      match (if ip.isEmpty then some 0 else parseNatChars ip),
            (if fp.isEmpty then some 0 else parseNatChars fp) with
      | some i, some f => .ok ⟨sd.1 * (i * 10 ^ fp.length + f), fp.length⟩
      | _, _ => err

theorem stripSign_intToString (m : Int) :
    stripSign (intToString m).data = (if m < 0 then (-1 : Int) else 1, natToChars m.natAbs) := by
  by_cases hm : m < 0
  · have : (intToString m).data = '-' :: natToChars m.natAbs := by
      simp only [intToString, if_pos hm, natToString]
      rfl
    rw [this]
    simp [stripSign, hm]
  · have : (intToString m).data = natToChars m.natAbs := by
      simp only [intToString, if_neg hm, natToString]
    rw [this]
    obtain ⟨c, cs, hc⟩ := List.exists_cons_of_ne_nil (natToChars_ne_nil m.natAbs)
    have hnm := natToChars_not_minus m.natAbs c cs hc
    rw [hc]
    simp [stripSign, hnm.1, hnm.2, hm, ← hc]

theorem sign_mul_natAbs (m : Int) : (if m < 0 then (-1 : Int) else 1) * m.natAbs = m := by
  by_cases hm : m < 0
  · rw [if_pos hm]
    omega
  · rw [if_neg hm]
    omega

/-- Round trip: formatting a stored Go integer and reparsing it restores the value
(within the int64 range `strconv.ParseInt` enforces). -/
theorem goParseInt_intToString (m : Int) (h1 : -(2 ^ 63) ≤ m) (h2 : m < 2 ^ 63) :
    goParseInt (intToString m) = .ok m := by
  unfold goParseInt
  rw [stripSign_intToString]
  simp only [parseNatChars_natToChars, sign_mul_natAbs]
  rw [if_neg (by omega)]

theorem dropWhile_natToChars (n : Nat) : (natToChars n).dropWhile (· != '.') = [] :=
  dropWhile_eq_nil_of_all _ (natToChars_not_dot n)

theorem takeWhile_natToChars (n : Nat) : (natToChars n).takeWhile (· != '.') = natToChars n :=
  takeWhile_eq_self_of_all _ (natToChars_not_dot n)

theorem padZeros_length (cs : List Char) (k : Nat) (h : cs.length ≤ k) :
    (padZeros cs k).length = k := by
  simp only [padZeros, List.length_append, List.length_replicate]
  omega

theorem padZeros_digits (cs : List Char) (k : Nat) (h : ∀ c ∈ cs, (c != '.') = true) :
    ∀ c ∈ padZeros cs k, (c != '.') = true := by
  intro c hc
  rcases List.mem_append.mp hc with h1 | h2
  · have := List.eq_of_mem_replicate h1
    subst this
    decide
  · exact h c h2

theorem parseNatChars_padZeros (n k : Nat) (hk : 1 ≤ k) (hn : n < 10 ^ k) :
    parseNatChars (padZeros (natToChars n) k) = some n := by
  have hlen : (natToChars n).length ≤ k := natToChars_length_le k n hk hn
  have hne : padZeros (natToChars n) k ≠ [] := by
    intro h
    have := padZeros_length (natToChars n) k hlen
    rw [h] at this
    simp at this
    omega
  rw [parseNatChars_eq_aux _ hne]
  unfold padZeros
  rw [parseNatAux_append, parseNatAux_replicate_zero]
  simp [parseNatAux_natToChars n]

/-- Round trip: formatting a stored float32 config value and reparsing it restores
the value exactly. -/
theorem goParseFloat_fmtDecFloat (v : DecFloat) : goParseFloat (fmtDecFloat v) = .ok v := by
  obtain ⟨m, e⟩ := v
  by_cases he : e = 0
  · subst he
    have hf : fmtDecFloat ⟨m, 0⟩ = intToString m := by simp [fmtDecFloat]
    rw [hf]
    unfold goParseFloat
    rw [stripSign_intToString]
    simp only [dropWhile_natToChars, parseNatChars_natToChars, sign_mul_natAbs]
  · -- fractional form: "[-]ipart.fracpart" with the fraction padded to e digits
    have he1 : 1 ≤ e := by omega
    have hmod : m.natAbs % 10 ^ e < 10 ^ e := Nat.mod_lt _ (by positivity)
    have hpadlen : (padZeros (natToChars (m.natAbs % 10 ^ e)) e).length = e :=
      padZeros_length _ _ (natToChars_length_le e _ he1 hmod)
    have hpaddig : ∀ c ∈ padZeros (natToChars (m.natAbs % 10 ^ e)) e, (c != '.') = true :=
      padZeros_digits _ _ (natToChars_not_dot _)
    have hdata : (fmtDecFloat ⟨m, e⟩).data =
        (if m < 0 then ['-'] else []) ++ natToChars (m.natAbs / 10 ^ e) ++
          '.' :: padZeros (natToChars (m.natAbs % 10 ^ e)) e := by
      simp only [fmtDecFloat, if_neg he]
    have hstrip : stripSign (fmtDecFloat ⟨m, e⟩).data =
        ((if m < 0 then (-1 : Int) else 1),
          natToChars (m.natAbs / 10 ^ e) ++ '.' :: padZeros (natToChars (m.natAbs % 10 ^ e)) e) := by
      rw [hdata]
      by_cases hm : m < 0
      · simp [stripSign, hm]
      · simp only [if_neg hm, List.nil_append]
        obtain ⟨c, cs, hc⟩ := List.exists_cons_of_ne_nil (natToChars_ne_nil (m.natAbs / 10 ^ e))
        have hnm := natToChars_not_minus _ c cs hc
        rw [hc]
        simp [stripSign, hnm.1, hnm.2, hm, List.cons_append]
    unfold goParseFloat
    rw [hstrip]
    simp only [takeWhile_append_stop _ '.' _ (natToChars_not_dot _) (by decide),
      dropWhile_append_stop _ '.' _ (natToChars_not_dot _) (by decide)]
    have hipne : (natToChars (m.natAbs / 10 ^ e)).isEmpty = false := by
      cases h : natToChars (m.natAbs / 10 ^ e) with
      | nil => exact absurd h (natToChars_ne_nil _)
      | cons c cs => rfl
    have hfpne : (padZeros (natToChars (m.natAbs % 10 ^ e)) e).isEmpty = false := by
      cases h : padZeros (natToChars (m.natAbs % 10 ^ e)) e with
      | nil =>
        rw [h] at hpadlen
        simp at hpadlen
        omega
      | cons c cs => rfl
    simp only [hipne, hfpne, Bool.false_and, Bool.and_false, if_neg (by simp : ¬false = true),
      if_false]
    rw [parseNatChars_natToChars, parseNatChars_padZeros _ _ he1 hmod]
    rw [hpadlen]
    have harith : m.natAbs / 10 ^ e * 10 ^ e + m.natAbs % 10 ^ e = m.natAbs := by
      rw [Nat.mul_comm]
      exact Nat.div_add_mod _ _
    have key : ((m.natAbs / 10 ^ e : Nat) : Int) * (10 : Int) ^ e + ((m.natAbs % 10 ^ e : Nat) : Int)
        = (m.natAbs : Int) := by
      exact_mod_cast harith
    simp only [key, sign_mul_natAbs]

/-! ## Strings and Go maps -/

/-- ASCII lower-casing: how `strings.ToLower` acts on the ASCII identifiers the
configuration layer deals in. -/
def lowerChar (c : Char) : Char :=
  if 'A' ≤ c ∧ c ≤ 'Z' then Char.ofNat (c.toNat + 32) else c

def lowerStr (s : String) : String := ⟨s.data.map lowerChar⟩

def splitDotsAux : List Char → List Char → List (List Char)
  | [], acc => [acc.reverse]
  | c :: cs, acc =>
    if c = '.' then acc.reverse :: splitDotsAux cs [] else splitDotsAux cs (c :: acc)

def joinDots : List (List Char) → String
  | [] => ""
  | [a] => ⟨a⟩
  | a :: rest => ⟨a⟩ ++ "." ++ joinDots rest

/-- Go `strings.SplitN(s, ".", 3)`: at most three parts, the third keeping any
further dots. -/
def splitN3 (s : String) : List String :=
  match splitDotsAux s.data [] with
  | [] => []
  | [a] => [⟨a⟩]
  | [a, b] => [⟨a⟩, ⟨b⟩]
  | a :: b :: rest => [⟨a⟩, ⟨b⟩, joinDots rest]

/-- Go `strings.Join(parts, sep)`. -/
def joinWith (sep : String) : List String → String
  | [] => ""
  | [a] => a
  | a :: rest => a ++ sep ++ joinWith sep rest

def assocLookup {K V : Type} [DecidableEq K] : List (K × V) → K → Option V
  | [], _ => none
  | (k', v) :: rest, k => if k = k' then some v else assocLookup rest k

def assocSet {K V : Type} [DecidableEq K] : List (K × V) → K → V → List (K × V)
  | [], k, v => [(k, v)]
  | (k', v') :: rest, k, v =>
    if k = k' then (k, v) :: rest else (k', v') :: assocSet rest k v

def assocDelete {K V : Type} [DecidableEq K] : List (K × V) → K → List (K × V)
  | [], _ => []
  | (k', v') :: rest, k => if k = k' then rest else (k', v') :: assocDelete rest k

/-- A Go map, embedded as an insertion-ordered association list plus the explicit
nil flag Go maps carry: a nil map reads as empty but is observably distinct from
an allocated empty map (the spec's "empty, not absent"). -/
structure GoMap (K V : Type) where
  isNil : Bool
  entries : List (K × V)
deriving DecidableEq

def GoMap.lookup {K V : Type} [DecidableEq K] (m : GoMap K V) (k : K) : Option V :=
  assocLookup m.entries k

/-- `reflect.Value.SetMapIndex` with a value (the map has been allocated). -/
def GoMap.set {K V : Type} [DecidableEq K] (m : GoMap K V) (k : K) (v : V) : GoMap K V :=
  ⟨false, assocSet m.entries k v⟩

/-- `reflect.Value.SetMapIndex` with the zero Value, i.e. deletion. -/
def GoMap.del {K V : Type} [DecidableEq K] (m : GoMap K V) (k : K) : GoMap K V :=
  ⟨m.isNil, assocDelete m.entries k⟩

/-- `reflect.MakeMap`: a freshly allocated empty, non-nil map. -/
def GoMap.empty {K V : Type} : GoMap K V := ⟨false, []⟩

/-- The zero value of a map-typed field: the nil map. -/
def GoMap.nilM {K V : Type} : GoMap K V := ⟨true, []⟩

def GoMap.len {K V : Type} (m : GoMap K V) : Nat := m.entries.length

def GoMap.keys {K V : Type} (m : GoMap K V) : List K := m.entries.map Prod.fst

/-! ## Scalar configuration values and the per-kind codec (`setConfigValue`,
`getConfigValue` of BotConfig.go) -/

/-- The scalar element types appearing in BotConfig fields; reference kinds are
string-backed, mirroring `DiscordRole/DiscordChannel/DiscordUser/ModuleID/CommandID`. -/
inductive FieldKind where
  | str | role | channel | user | moduleId | commandId | int | float
deriving DecidableEq

/-- A stored scalar value (the payload a `reflect.Value` of scalar type holds). -/
inductive Scalar where
  | s (v : String)
  | i (v : Int)
  | f (v : DecFloat)
  | b (v : Bool)
deriving DecidableEq

/-- `fmt.Sprint` of a stored scalar. -/
def fmtScalar : Scalar → String
  | .s v => v
  | .i v => intToString v
  | .f v => fmtDecFloat v
  | .b v => if v then "true" else "false"

/-- The live-guild context `setConfigValue` consults: the registered modules and
commands, and the Directory resolution of role/channel/user text (ParseRole /
ParseChannel / ParseUser live outside this file's sources, so they are supplied
as abstract resolution functions per the spec's Directory interface), plus the
message `deleteFromMapReflect` returns (that helper is also outside the sources). -/
structure GuildInfo where
  modules : List String
  commands : List String
  parseRole : String → Except String String
  parseChannel : String → Except String String
  parseUser : String → Except String String
  deleteMsg : String → String
  sanitize : String → String

/-- The `discordgo.State` lookups `getConfigValue` uses to render references. -/
structure GuildState where
  roleName : String → Option String
  channelName : String → Option String
  memberName : String → Option String

/-- `setConfigValue` (BotConfig.go:313-372): parse `value` into a scalar of the
field's type, dispatching on that type exactly as the Go type switch does. -/
def setConfigValue (kind : FieldKind) (value : String) (info : GuildInfo) :
    Except String Scalar :=
  match kind with
  | .str => .ok (.s value)
  | .role => (info.parseRole value).map .s
  | .channel => (info.parseChannel value).map .s
  | .user => (info.parseUser value).map .s
  | .moduleId =>
    let v := lowerStr value
    if info.modules.any fun m => v = lowerStr m then .ok (.s v)
    else .error (v ++ " is not a module name!")
  | .commandId =>
    let v := lowerStr value
    if info.commands.contains v then .ok (.s v)
    else .error (v ++ " is not a command name!")
  | .int => (goParseInt value).map .i
  | .float => (goParseFloat value).map .f

/-- `getConfigValue` (BotConfig.go:504-524): render a stored scalar, resolving
reference kinds through the state and falling back to `fmt.Sprint` of the raw
identifier when the lookup fails. -/
def getConfigValue (kind : FieldKind) (v : Scalar) (st : GuildState) : String :=
  match kind, v with
  | .role, .s id =>
    match st.roleName id with
    | some name => "@" ++ name
    | none => id
  | .channel, .s id =>
    match st.channelName id with
    | some name => "#" ++ name
    | none => id
  | .user, .s id =>
    match st.memberName id with
    | some name => name
    | none => id
  | _, w => fmtScalar w

/-! ## Collection setters (`setConfigKeyValue`, `setConfigList`, `setConfigMapList`) -/

/-- `setConfigKeyValue` (BotConfig.go:373-395): Map-kind assignment.  With an
empty value text the key is deleted and the call reports `"Deleted " + value[0]`
(the empty value text) with success `false`. -/
def setConfigKeyValue (keyKind valKind : FieldKind) (key : String) (value : List String)
    (info : GuildInfo) (f : GoMap String Scalar) : String × Bool × GoMap String Scalar :=
  match value with
  | [] => ("No value parameter given", false, f)
  | v0 :: _ =>
    match setConfigValue keyKind key info with
    | .error e => ("Key error: " ++ e, false, f)
    | .ok k =>
      let f := if f.isNil then GoMap.empty else f
      if v0 = "" then ("Deleted " ++ v0, false, f.del (fmtScalar k))
      else
        match setConfigValue valKind v0 info with
        | .error e => ("Value error: " ++ e, false, f)
        | .ok v => (fmtScalar k ++ ": " ++ fmtScalar v, true, f.set (fmtScalar k) v)

/-- The element loop of `setConfigList`'s map branch: parse each value and insert
it into the (already cleared) set; a parse failure stops the loop, leaving the
partially filled collection in place. -/
def setConfigListMapGo (kind : FieldKind) (info : GuildInfo) :
    List String → GoMap String Bool → List String → String × Bool × GoMap String Bool
  | [], m, stripped => ("[" ++ joinWith ", " stripped ++ "]", true, m)
  | value :: rest, m, stripped =>
    match setConfigValue kind value info with
    | .error e => ("Value error: " ++ e, false, m)
    | .ok v =>
      setConfigListMapGo kind info rest (m.set (fmtScalar v) true) (stripped ++ [fmtScalar v])

/-- `setConfigList` (BotConfig.go:397-430), map (Set-kind) branch: the field is
replaced by a fresh empty map first (`f.Set(reflect.MakeMap(...))`), then filled;
an empty leading value skips the loop entirely, leaving the fresh empty map. -/
def setConfigListMap (kind : FieldKind) (values : List String) (info : GuildInfo) :
    String × Bool × GoMap String Bool :=
  match values with
  | [] => ("[]", true, GoMap.empty)
  | v0 :: _ =>
    if v0 = "" then ("[]", true, GoMap.empty)
    else setConfigListMapGo kind info values GoMap.empty []

/-- The element loop of `setConfigList`'s slice branch (string elements, used by
the `map[DiscordUser][]string` quotes option). -/
def setConfigListSliceGo (info : GuildInfo) :
    List String → List String → String × Bool × List String
  | [], acc => ("[" ++ joinWith " " acc ++ "]", true, acc)
  | value :: rest, acc =>
    match setConfigValue .str value info with
    | .error e => ("Value error: " ++ e, false, acc)
    | .ok v => setConfigListSliceGo info rest (acc ++ [fmtScalar v])

/-- `setConfigList` (BotConfig.go:397-430), slice branch; the reply echoes
`fmt.Sprint` of the new slice (space-joined in brackets). -/
def setConfigListSlice (values : List String) (info : GuildInfo) :
    String × Bool × List String :=
  match values with
  | [] => ("[]", true, [])
  | v0 :: _ =>
    if v0 = "" then ("[]", true, [])
    else setConfigListSliceGo info values []

/-- Modelled from the spec: `deleteFromMapReflect` is a Util helper outside this
repository slice.  Per spec §4.2 a Map/MapList deletion "removes the key"; the
message it returns is not specified there, so it is supplied abstractly through
`GuildInfo.deleteMsg`. -/
def deleteFromMapReflect {V : Type} (info : GuildInfo) (f : GoMap String V) (k : String) :
    String × GoMap String V :=
  (info.deleteMsg k, f.del k)

/-- `setConfigMapList` (BotConfig.go:432-454) for MapList options whose inner
collection is a set (`map[...]bool`): an empty values list deletes the key
(success `false`); otherwise a fresh inner collection is built by `setConfigList`
and only installed when that succeeds. -/
def setConfigMapListSet (keyKind elemKind : FieldKind) (key : String) (values : List String)
    (info : GuildInfo) (f : GoMap String (GoMap String Bool)) :
    String × Bool × GoMap String (GoMap String Bool) :=
  let f := if f.isNil then GoMap.empty else f
  if key = "" then ("No key specified", false, f)
  else
    match setConfigValue keyKind key info with
    | .error e => ("Key error: " ++ e, false, f)
    | .ok k =>
      if values = [] then
        let d := deleteFromMapReflect info f (fmtScalar k)
        (d.1, false, d.2)
      else
        match setConfigListMap elemKind values info with
        | (s, false, _) => (s, false, f)
        | (s, true, v) => (fmtScalar k ++ ": " ++ s, true, f.set (fmtScalar k) v)

/-- `setConfigMapList` for the slice-valued quotes option. -/
def setConfigMapListSlice (keyKind : FieldKind) (key : String) (values : List String)
    (info : GuildInfo) (f : GoMap String (List String)) :
    String × Bool × GoMap String (List String) :=
  let f := if f.isNil then GoMap.empty else f
  if key = "" then ("No key specified", false, f)
  else
    match setConfigValue keyKind key info with
    | .error e => ("Key error: " ++ e, false, f)
    | .ok k =>
      if values = [] then
        let d := deleteFromMapReflect info f (fmtScalar k)
        (d.1, false, d.2)
      else
        match setConfigListSlice values info with
        | (s, false, _) => (s, false, f)
        | (s, true, v) => (fmtScalar k ++ ": " ++ s, true, f.set (fmtScalar k) v)

/-! ## The configuration tree (`BotConfig`, BotConfig.go:18-118)

Field names follow the Go struct; reference-typed fields
(`DiscordRole`/`DiscordChannel`/`DiscordUser`) are string-backed identifiers.
`CommandPrefix` is rendered here as `CommandPfx`. -/

structure BasicS where
  IgnoreInvalidCommands : Bool
  Importable : Bool
  ModRole : String
  ModChannel : String
  FreeChannels : GoMap String Bool
  BotChannel : String
  Aliases : GoMap String Scalar
  ListenToBots : Bool
  CommandPfx : String
  SilenceRole : String
deriving DecidableEq

structure ModulesS where
  Channels : GoMap String (GoMap String Bool)
  Disabled : GoMap String Bool
  CommandRoles : GoMap String (GoMap String Bool)
  CommandChannels : GoMap String (GoMap String Bool)
  CommandLimits : GoMap String Scalar
  CommandDisabled : GoMap String Bool
  CommandPerDuration : Int
  CommandMaxDuration : Int
deriving DecidableEq

structure SpamS where
  ImagePressure : DecFloat
  PingPressure : DecFloat
  LengthPressure : DecFloat
  RepeatPressure : DecFloat
  LinePressure : DecFloat
  BasePressure : DecFloat
  PressureDecay : DecFloat
  MaxPressure : DecFloat
  MaxChannelPressure : GoMap String Scalar
  MaxRemoveLookback : Int
  IgnoreRole : String
  RaidTime : Int
  RaidSize : Int
  AutoSilence : Int
  LockdownDuration : Int
deriving DecidableEq

structure UsersS where
  TimezoneLocation : String
  WelcomeChannel : String
  WelcomeMessage : String
  SilenceMessage : String
  Roles : GoMap String Bool
  NotifyChannel : String
  TrackUserLeft : Bool
deriving DecidableEq

structure BucketS where
  MaxItems : Int
  MaxItemLength : Int
  MaxFightHP : Int
  MaxFightDamage : Int
  Items : GoMap String Bool
deriving DecidableEq

structure MarkovS where
  MaxPMlines : Int
  MaxLines : Int
  DefaultLines : Int
  UseMemberNames : Bool
deriving DecidableEq

structure FilterS where
  Filters : GoMap String (GoMap String Bool)
  Channels : GoMap String (GoMap String Bool)
  Responses : GoMap String Scalar
  Templates : GoMap String Scalar
deriving DecidableEq

structure BoredS where
  Cooldown : Int
  Commands : GoMap String Bool
deriving DecidableEq

structure InformationS where
  Rules : GoMap String Scalar
  HideNegativeRules : Bool
deriving DecidableEq

structure LogS where
  Cooldown : Int
  Channel : String
deriving DecidableEq

structure WittyS where
  Responses : GoMap String Scalar
  Cooldown : Int
deriving DecidableEq

structure SchedulerS where
  BirthdayRole : String
deriving DecidableEq

structure MiscellaneousS where
  MaxSearchResults : Int
deriving DecidableEq

structure StatusS where
  Cooldown : Int
  Lines : GoMap String Bool
deriving DecidableEq

structure QuoteS where
  Quotes : GoMap String (List String)
deriving DecidableEq

structure BotConfig where
  Version : Int
  LastVersion : Int
  SetupDone : Bool
  Basic : BasicS
  Modules : ModulesS
  Spam : SpamS
  Users : UsersS
  Bucket : BucketS
  Markov : MarkovS
  Filter : FilterS
  Bored : BoredS
  Information : InformationS
  Log : LogS
  Witty : WittyS
  Scheduler : SchedulerS
  Miscellaneous : MiscellaneousS
  Status : StatusS
  Quote : QuoteS
deriving DecidableEq

/-- `ConfigVersion` (BotConfig.go:233): the latest config file version. -/
def ConfigVersion : Int := 21

/-- Modelled from the spec: `BotVersion.Integer()` is the running bot's version
integer, defined outside this repository slice; its value is irrelevant here. -/
def BotVersionInteger : Int := 0

/-- The zero `BotConfig` a fresh `json.Unmarshal` target starts from: zero
scalars, empty strings, nil maps. -/
def zeroConfig : BotConfig where
  Version := 0
  LastVersion := 0
  SetupDone := false
  Basic := ⟨false, false, "", "", GoMap.nilM, "", GoMap.nilM, false, "", ""⟩
  Modules := ⟨GoMap.nilM, GoMap.nilM, GoMap.nilM, GoMap.nilM, GoMap.nilM, GoMap.nilM, 0, 0⟩
  Spam := ⟨⟨0, 0⟩, ⟨0, 0⟩, ⟨0, 0⟩, ⟨0, 0⟩, ⟨0, 0⟩, ⟨0, 0⟩, ⟨0, 0⟩, ⟨0, 0⟩,
    GoMap.nilM, 0, "", 0, 0, 0, 0⟩
  Users := ⟨"", "", "", "", GoMap.nilM, "", false⟩
  Bucket := ⟨0, 0, 0, 0, GoMap.nilM⟩
  Markov := ⟨0, 0, 0, false⟩
  Filter := ⟨GoMap.nilM, GoMap.nilM, GoMap.nilM, GoMap.nilM⟩
  Bored := ⟨0, GoMap.nilM⟩
  Information := ⟨GoMap.nilM, false⟩
  Log := ⟨0, ""⟩
  Witty := ⟨GoMap.nilM, 0⟩
  Scheduler := ⟨""⟩
  Miscellaneous := ⟨0⟩
  Status := ⟨0, GoMap.nilM⟩
  Quote := ⟨GoMap.nilM⟩

/-- `DefaultConfig` (BotConfig.go:236-276).  The float32 fields computed by
division are stored as the shortest decimal Go displays for the resulting
float32 (`(60-10)/6 = 8.333333`, `(60-10)/70 = 0.71428573`); the others are
exact. -/
def DefaultConfig : BotConfig :=
  { zeroConfig with
    Version := ConfigVersion
    LastVersion := BotVersionInteger
    SetupDone := false
    Basic.IgnoreInvalidCommands := false
    Basic.Importable := false
    Basic.CommandPfx := "!"
    Modules.CommandPerDuration := 3
    Modules.CommandMaxDuration := 15
    Spam.MaxPressure := ⟨60, 0⟩
    Spam.BasePressure := ⟨10, 0⟩
    Spam.ImagePressure := ⟨8333333, 6⟩
    Spam.PingPressure := ⟨25, 1⟩
    Spam.LengthPressure := ⟨625, 5⟩
    Spam.RepeatPressure := ⟨10, 0⟩
    Spam.LinePressure := ⟨71428573, 8⟩
    Spam.PressureDecay := ⟨25, 1⟩
    Spam.MaxRemoveLookback := 4
    Spam.RaidTime := 240
    Spam.RaidSize := 4
    Spam.AutoSilence := 1
    Spam.LockdownDuration := 120
    Bucket.MaxItems := 10
    Bucket.MaxItemLength := 100
    Bucket.MaxFightHP := 300
    Bucket.MaxFightDamage := 60
    Markov.MaxPMlines := 5
    Markov.MaxLines := 30
    Markov.DefaultLines := 5
    Markov.UseMemberNames := true
    Bored.Cooldown := 500
    Bored.Commands := ⟨false, [("!quote", true), ("!drop", true)]⟩
    Log.Cooldown := 4
    Witty.Cooldown := 180
    Miscellaneous.MaxSearchResults := 10
    Status.Cooldown := 3600 }

/-! ## Path resolution (`FixRequest`, BotConfig.go:279-311) -/

/-- The top-level fields of `BotConfig` in declaration order, as the reflection
walk `t.NumField()` visits them. -/
def botTopFields : List String :=
  ["Version", "LastVersion", "SetupDone", "Basic", "Modules", "Spam", "Users",
   "Bucket", "Markov", "Filter", "Bored", "Information", "Log", "Witty",
   "Scheduler", "Miscellaneous", "Status", "Quote"]

/-- The struct-kind categories with their option field names, in declaration
order (the second reflection pass of `FixRequest`). -/
def botCategories : List (String × List String) :=
  [("Basic", ["IgnoreInvalidCommands", "Importable", "ModRole", "ModChannel",
      "FreeChannels", "BotChannel", "Aliases", "ListenToBots", "CommandPrefix",
      "SilenceRole"]),
   ("Modules", ["Channels", "Disabled", "CommandRoles", "CommandChannels",
      "CommandLimits", "CommandDisabled", "CommandPerDuration",
      "CommandMaxDuration"]),
   ("Spam", ["ImagePressure", "PingPressure", "LengthPressure", "RepeatPressure",
      "LinePressure", "BasePressure", "PressureDecay", "MaxPressure",
      "MaxChannelPressure", "MaxRemoveLookback", "IgnoreRole", "RaidTime",
      "RaidSize", "AutoSilence", "LockdownDuration"]),
   ("Users", ["TimezoneLocation", "WelcomeChannel", "WelcomeMessage",
      "SilenceMessage", "Roles", "NotifyChannel", "TrackUserLeft"]),
   ("Bucket", ["MaxItems", "MaxItemLength", "MaxFightHP", "MaxFightDamage",
      "Items"]),
   ("Markov", ["MaxPMlines", "MaxLines", "DefaultLines", "UseMemberNames"]),
   ("Filter", ["Filters", "Channels", "Responses", "Templates"]),
   ("Bored", ["Cooldown", "Commands"]),
   ("Information", ["Rules", "HideNegativeRules"]),
   ("Log", ["Cooldown", "Channel"]),
   ("Witty", ["Responses", "Cooldown"]),
   ("Scheduler", ["BirthdayRole"]),
   ("Miscellaneous", ["MaxSearchResults"]),
   ("Status", ["Cooldown", "Lines"]),
   ("Quote", ["Quotes"])]

/-- `FixRequest` (BotConfig.go:279-311): try to qualify a request that is not
fully qualified.  A first segment matching any top-level field name is returned
unchanged; otherwise every category is scanned for an option of that name —
zero matches returns the argument unchanged, one match qualifies it, several
matches produce the ambiguity error listing every candidate. -/
def bareMatches (a0 : String) : List String :=
  botCategories.foldr
    (fun co acc => ((co.2.filter fun o => lowerStr o == a0).map fun _ => co.1) ++ acc) []

def FixRequest (arg : String) : Except String String :=
  let args := splitN3 (lowerStr arg)
  let a0 := args.headD ""
  if botTopFields.any fun f => lowerStr f == a0 then .ok arg
  else
    let list := bareMatches a0
    if list.length < 1 then .ok arg
    else if list.length = 1 then .ok (lowerStr (list.headD "") ++ "." ++ arg)
    else
      .error ("```\nCould be any of the following:\n" ++
        joinWith "\n" (list.map fun c => c ++ "." ++ a0) ++ "```")

/-! ## `SetConfig` (BotConfig.go:457-502)

The reflection walk dispatches on each field's dynamic type; here each option
branch invokes the handler its Go type selects.  The helpers below are the four
arms of the type switch. -/

/-- Scalar (string-backed reference or plain string) assignment arm. -/
def setStrField (config : BotConfig) (info : GuildInfo) (kind : FieldKind) (value : String)
    (put : BotConfig → String → BotConfig) : String × Bool × BotConfig :=
  match setConfigValue kind value info with
  | .error e => ("Error: " ++ e, false, config)
  | .ok v => (fmtScalar v, true, put config (fmtScalar v))

/-- Integer scalar assignment arm (`strconv.ParseInt`). -/
def setIntField (config : BotConfig) (value : String)
    (put : BotConfig → Int → BotConfig) : String × Bool × BotConfig :=
  match goParseInt value with
  | .error e => ("Error: " ++ e, false, config)
  | .ok v => (intToString v, true, put config v)

/-- Float scalar assignment arm (`strconv.ParseFloat`). -/
def setFloatField (config : BotConfig) (value : String)
    (put : BotConfig → DecFloat → BotConfig) : String × Bool × BotConfig :=
  match goParseFloat value with
  | .error e => ("Error: " ++ e, false, config)
  | .ok v => (fmtDecFloat v, true, put config v)

/-- Boolean assignment arm: only literal `true`/`false` (case-insensitive). -/
def setBoolField (config : BotConfig) (name value : String)
    (put : BotConfig → Bool → BotConfig) : String × Bool × BotConfig :=
  if lowerStr value = "true" then ("true", true, put config true)
  else if lowerStr value = "false" then ("false", true, put config false)
  else (name ++ " must be set to either 'true' or 'false'", false, config)

/-- Set-kind collection arm (the `map[...]bool` case list of SetConfig). -/
def setListField (config : BotConfig) (info : GuildInfo) (kind : FieldKind)
    (value : String) (extra : List String)
    (put : BotConfig → GoMap String Bool → BotConfig) : String × Bool × BotConfig :=
  let r := setConfigListMap kind (value :: extra) info
  (r.1, r.2.1, put config r.2.2)

/-- Map-kind arm (`setConfigKeyValue(f, strings.ToLower(value), extra, info)`). -/
def setKeyValueField (config : BotConfig) (info : GuildInfo) (keyKind valKind : FieldKind)
    (value : String) (extra : List String)
    (get : BotConfig → GoMap String Scalar)
    (put : BotConfig → GoMap String Scalar → BotConfig) : String × Bool × BotConfig :=
  let r := setConfigKeyValue keyKind valKind (lowerStr value) extra info (get config)
  (r.1, r.2.1, put config r.2.2)

/-- MapList-kind arm (`setConfigMapList(f, strings.ToLower(value), extra, info)`). -/
def setMapListField (config : BotConfig) (info : GuildInfo) (keyKind elemKind : FieldKind)
    (value : String) (extra : List String)
    (get : BotConfig → GoMap String (GoMap String Bool))
    (put : BotConfig → GoMap String (GoMap String Bool) → BotConfig) :
    String × Bool × BotConfig :=
  let r := setConfigMapListSet keyKind elemKind (lowerStr value) extra info (get config)
  (r.1, r.2.1, put config r.2.2)

/-- MapList-kind arm for the slice-valued quotes map. -/
def setMapListSliceField (config : BotConfig) (info : GuildInfo) (keyKind : FieldKind)
    (value : String) (extra : List String)
    (get : BotConfig → GoMap String (List String))
    (put : BotConfig → GoMap String (List String) → BotConfig) :
    String × Bool × BotConfig :=
  let r := setConfigMapListSlice keyKind (lowerStr value) extra info (get config)
  (r.1, r.2.1, put config r.2.2)

/-- `SetConfig` (BotConfig.go:457-502): split and lower the dotted name, scan the
top-level fields, reject a bare category, then dispatch on the matched option's
type.  `Version`/`LastVersion`/`SetupDone` match the name scan but are not
structs, so they fall into the `"Not a configuration category!"` default. -/
def SetConfig (config : BotConfig) (info : GuildInfo) (name value : String)
    (extra : List String) : String × Bool × BotConfig :=
  let names := splitN3 (lowerStr name)
  let n0 := names.headD ""
  let n1 := names.getD 1 ""
  let catMsg :=
    "Can't set a configuration category! Use \"Category.Option\" to set a specific option."
  let notFound :=
    ("Could not find configuration parameter " ++ name ++ "!", false, config)
  if n0 = "version" ∨ n0 = "lastversion" ∨ n0 = "setupdone" then
    if names.length < 2 then (catMsg, false, config)
    else ("Not a configuration category!", false, config)
  else if n0 = "basic" then
    if names.length < 2 then (catMsg, false, config)
    else if n1 = "ignoreinvalidcommands" then
      setBoolField config name value fun c b => { c with Basic.IgnoreInvalidCommands := b }
    else if n1 = "importable" then
      setBoolField config name value fun c b => { c with Basic.Importable := b }
    else if n1 = "modrole" then
      setStrField config info .role value fun c v => { c with Basic.ModRole := v }
    else if n1 = "modchannel" then
      setStrField config info .channel value fun c v => { c with Basic.ModChannel := v }
    else if n1 = "freechannels" then
      setListField config info .channel value extra fun c v => { c with Basic.FreeChannels := v }
    else if n1 = "botchannel" then
      setStrField config info .channel value fun c v => { c with Basic.BotChannel := v }
    else if n1 = "aliases" then
      setKeyValueField config info .str .str value extra (fun c => c.Basic.Aliases)
        fun c v => { c with Basic.Aliases := v }
    else if n1 = "listentobots" then
      setBoolField config name value fun c b => { c with Basic.ListenToBots := b }
    else if n1 = "commandprefix" then
      setStrField config info .str value fun c v => { c with Basic.CommandPfx := v }
    else if n1 = "silencerole" then
      setStrField config info .role value fun c v => { c with Basic.SilenceRole := v }
    else notFound
  else if n0 = "modules" then
    if names.length < 2 then (catMsg, false, config)
    else if n1 = "channels" then
      setMapListField config info .moduleId .channel value extra (fun c => c.Modules.Channels)
        fun c v => { c with Modules.Channels := v }
    else if n1 = "disabled" then
      setListField config info .moduleId value extra fun c v => { c with Modules.Disabled := v }
    else if n1 = "commandroles" then
      setMapListField config info .commandId .role value extra (fun c => c.Modules.CommandRoles)
        fun c v => { c with Modules.CommandRoles := v }
    else if n1 = "commandchannels" then
      setMapListField config info .commandId .channel value extra
        (fun c => c.Modules.CommandChannels)
        fun c v => { c with Modules.CommandChannels := v }
    else if n1 = "commandlimits" then
      setKeyValueField config info .commandId .int value extra (fun c => c.Modules.CommandLimits)
        fun c v => { c with Modules.CommandLimits := v }
    else if n1 = "commanddisabled" then
      setListField config info .commandId value extra
        fun c v => { c with Modules.CommandDisabled := v }
    else if n1 = "commandperduration" then
      setIntField config value fun c v => { c with Modules.CommandPerDuration := v }
    else if n1 = "commandmaxduration" then
      setIntField config value fun c v => { c with Modules.CommandMaxDuration := v }
    else notFound
  else if n0 = "spam" then
    if names.length < 2 then (catMsg, false, config)
    else if n1 = "imagepressure" then
      setFloatField config value fun c v => { c with Spam.ImagePressure := v }
    else if n1 = "pingpressure" then
      setFloatField config value fun c v => { c with Spam.PingPressure := v }
    else if n1 = "lengthpressure" then
      setFloatField config value fun c v => { c with Spam.LengthPressure := v }
    else if n1 = "repeatpressure" then
      setFloatField config value fun c v => { c with Spam.RepeatPressure := v }
    else if n1 = "linepressure" then
      setFloatField config value fun c v => { c with Spam.LinePressure := v }
    else if n1 = "basepressure" then
      setFloatField config value fun c v => { c with Spam.BasePressure := v }
    else if n1 = "pressuredecay" then
      setFloatField config value fun c v => { c with Spam.PressureDecay := v }
    else if n1 = "maxpressure" then
      setFloatField config value fun c v => { c with Spam.MaxPressure := v }
    else if n1 = "maxchannelpressure" then
      setKeyValueField config info .channel .float value extra
        (fun c => c.Spam.MaxChannelPressure)
        fun c v => { c with Spam.MaxChannelPressure := v }
    else if n1 = "maxremovelookback" then
      setIntField config value fun c v => { c with Spam.MaxRemoveLookback := v }
    else if n1 = "ignorerole" then
      setStrField config info .role value fun c v => { c with Spam.IgnoreRole := v }
    else if n1 = "raidtime" then
      setIntField config value fun c v => { c with Spam.RaidTime := v }
    else if n1 = "raidsize" then
      setIntField config value fun c v => { c with Spam.RaidSize := v }
    else if n1 = "autosilence" then
      setIntField config value fun c v => { c with Spam.AutoSilence := v }
    else if n1 = "lockdownduration" then
      setIntField config value fun c v => { c with Spam.LockdownDuration := v }
    else notFound
  else if n0 = "users" then
    if names.length < 2 then (catMsg, false, config)
    else if n1 = "timezonelocation" then
      setStrField config info .str value fun c v => { c with Users.TimezoneLocation := v }
    else if n1 = "welcomechannel" then
      setStrField config info .channel value fun c v => { c with Users.WelcomeChannel := v }
    else if n1 = "welcomemessage" then
      setStrField config info .str value fun c v => { c with Users.WelcomeMessage := v }
    else if n1 = "silencemessage" then
      setStrField config info .str value fun c v => { c with Users.SilenceMessage := v }
    else if n1 = "roles" then
      setListField config info .role value extra fun c v => { c with Users.Roles := v }
    else if n1 = "notifychannel" then
      setStrField config info .channel value fun c v => { c with Users.NotifyChannel := v }
    else if n1 = "trackuserleft" then
      setBoolField config name value fun c b => { c with Users.TrackUserLeft := b }
    else notFound
  else if n0 = "bucket" then
    if names.length < 2 then (catMsg, false, config)
    else if n1 = "maxitems" then
      setIntField config value fun c v => { c with Bucket.MaxItems := v }
    else if n1 = "maxitemlength" then
      setIntField config value fun c v => { c with Bucket.MaxItemLength := v }
    else if n1 = "maxfighthp" then
      setIntField config value fun c v => { c with Bucket.MaxFightHP := v }
    else if n1 = "maxfightdamage" then
      setIntField config value fun c v => { c with Bucket.MaxFightDamage := v }
    else if n1 = "items" then
      setListField config info .str value extra fun c v => { c with Bucket.Items := v }
    else notFound
  else if n0 = "markov" then
    if names.length < 2 then (catMsg, false, config)
    else if n1 = "maxpmlines" then
      setIntField config value fun c v => { c with Markov.MaxPMlines := v }
    else if n1 = "maxlines" then
      setIntField config value fun c v => { c with Markov.MaxLines := v }
    else if n1 = "defaultlines" then
      setIntField config value fun c v => { c with Markov.DefaultLines := v }
    else if n1 = "usemembernames" then
      setBoolField config name value fun c b => { c with Markov.UseMemberNames := b }
    else notFound
  else if n0 = "filter" then
    if names.length < 2 then (catMsg, false, config)
    else if n1 = "filters" then
      setMapListField config info .str .str value extra (fun c => c.Filter.Filters)
        fun c v => { c with Filter.Filters := v }
    else if n1 = "channels" then
      setMapListField config info .str .channel value extra (fun c => c.Filter.Channels)
        fun c v => { c with Filter.Channels := v }
    else if n1 = "responses" then
      setKeyValueField config info .str .str value extra (fun c => c.Filter.Responses)
        fun c v => { c with Filter.Responses := v }
    else if n1 = "templates" then
      setKeyValueField config info .str .str value extra (fun c => c.Filter.Templates)
        fun c v => { c with Filter.Templates := v }
    else notFound
  else if n0 = "bored" then
    if names.length < 2 then (catMsg, false, config)
    else if n1 = "cooldown" then
      setIntField config value fun c v => { c with Bored.Cooldown := v }
    else if n1 = "commands" then
      setListField config info .str value extra fun c v => { c with Bored.Commands := v }
    else notFound
  else if n0 = "information" then
    if names.length < 2 then (catMsg, false, config)
    else if n1 = "rules" then
      setKeyValueField config info .int .str value extra (fun c => c.Information.Rules)
        fun c v => { c with Information.Rules := v }
    else if n1 = "hidenegativerules" then
      setBoolField config name value fun c b => { c with Information.HideNegativeRules := b }
    else notFound
  else if n0 = "log" then
    if names.length < 2 then (catMsg, false, config)
    else if n1 = "cooldown" then
      setIntField config value fun c v => { c with Log.Cooldown := v }
    else if n1 = "channel" then
      setStrField config info .channel value fun c v => { c with Log.Channel := v }
    else notFound
  else if n0 = "witty" then
    if names.length < 2 then (catMsg, false, config)
    else if n1 = "responses" then
      setKeyValueField config info .str .str value extra (fun c => c.Witty.Responses)
        fun c v => { c with Witty.Responses := v }
    else if n1 = "cooldown" then
      setIntField config value fun c v => { c with Witty.Cooldown := v }
    else notFound
  else if n0 = "scheduler" then
    if names.length < 2 then (catMsg, false, config)
    else if n1 = "birthdayrole" then
      setStrField config info .role value fun c v => { c with Scheduler.BirthdayRole := v }
    else notFound
  else if n0 = "miscellaneous" then
    if names.length < 2 then (catMsg, false, config)
    else if n1 = "maxsearchresults" then
      setIntField config value fun c v => { c with Miscellaneous.MaxSearchResults := v }
    else notFound
  else if n0 = "status" then
    if names.length < 2 then (catMsg, false, config)
    else if n1 = "cooldown" then
      setIntField config value fun c v => { c with Status.Cooldown := v }
    else if n1 = "lines" then
      setListField config info .str value extra fun c v => { c with Status.Lines := v }
    else notFound
  else if n0 = "quote" then
    if names.length < 2 then (catMsg, false, config)
    else if n1 = "quotes" then
      setMapListSliceField config info .user value extra (fun c => c.Quote.Quotes)
        fun c v => { c with Quote.Quotes := v }
    else notFound
  else notFound

/-! ## `GetConfig` and the getconfig command (BotConfig.go:504-578, ConfigModule) -/

/-- `getConfigList` (BotConfig.go:525-544) on a set-kind map: one line per key
(this embedding iterates in insertion order; Go's map order is unspecified). -/
def getConfigListSet (kind : FieldKind) (m : GoMap String Bool) (st : GuildState) :
    List String :=
  m.keys.map fun k => getConfigValue kind (.s k) st

/-- `getConfigList` on a value-map: `"key": value` lines. -/
def getConfigListMap (keyKind valKind : FieldKind) (m : GoMap String Scalar)
    (st : GuildState) : List String :=
  m.entries.map fun kv =>
    "\"" ++ getConfigValue keyKind (.s kv.1) st ++ "\": " ++ getConfigValue valKind kv.2 st

/-- `getConfigMapList` (BotConfig.go:546-559): single-element inner collections
are shown inline, larger ones as an item count. -/
def getConfigMapListSet (keyKind elemKind : FieldKind)
    (m : GoMap String (GoMap String Bool)) (st : GuildState) : List String :=
  m.entries.map fun kv =>
    let k := getConfigValue keyKind (.s kv.1) st
    if kv.2.len = 1 then "\"" ++ k ++ "\": " ++ joinWith ", " (getConfigListSet elemKind kv.2 st)
    else "\"" ++ k ++ "\": [" ++ natToString kv.2.len ++ " items]"

/-- `getConfigMapList` for the slice-valued quotes map. -/
def getConfigMapListSlice (keyKind : FieldKind) (m : GoMap String (List String))
    (st : GuildState) : List String :=
  m.entries.map fun kv =>
    let k := getConfigValue keyKind (.s kv.1) st
    if kv.2.length = 1 then "\"" ++ k ++ "\": " ++ joinWith ", " kv.2
    else "\"" ++ k ++ "\": [" ++ natToString kv.2.length ++ " items]"

/-- `GetConfig` (BotConfig.go:561-578) at a `Category.Option` path: dispatch on
the field's type exactly as the Go type switch does. -/
def getConfigPath (cfg : BotConfig) (st : GuildState) (cat opt : String) : List String :=
  if cat = "basic" then
    if opt = "ignoreinvalidcommands" then [fmtScalar (.b cfg.Basic.IgnoreInvalidCommands)]
    else if opt = "importable" then [fmtScalar (.b cfg.Basic.Importable)]
    else if opt = "modrole" then [getConfigValue .role (.s cfg.Basic.ModRole) st]
    else if opt = "modchannel" then [getConfigValue .channel (.s cfg.Basic.ModChannel) st]
    else if opt = "freechannels" then getConfigListSet .channel cfg.Basic.FreeChannels st
    else if opt = "botchannel" then [getConfigValue .channel (.s cfg.Basic.BotChannel) st]
    else if opt = "aliases" then getConfigListMap .str .str cfg.Basic.Aliases st
    else if opt = "listentobots" then [fmtScalar (.b cfg.Basic.ListenToBots)]
    else if opt = "commandprefix" then [cfg.Basic.CommandPfx]
    else if opt = "silencerole" then [getConfigValue .role (.s cfg.Basic.SilenceRole) st]
    else []
  else if cat = "modules" then
    if opt = "channels" then getConfigMapListSet .moduleId .channel cfg.Modules.Channels st
    else if opt = "disabled" then getConfigListSet .moduleId cfg.Modules.Disabled st
    else if opt = "commandroles" then
      getConfigMapListSet .commandId .role cfg.Modules.CommandRoles st
    else if opt = "commandchannels" then
      getConfigMapListSet .commandId .channel cfg.Modules.CommandChannels st
    else if opt = "commandlimits" then
      getConfigListMap .commandId .int cfg.Modules.CommandLimits st
    else if opt = "commanddisabled" then
      getConfigListSet .commandId cfg.Modules.CommandDisabled st
    else if opt = "commandperduration" then [intToString cfg.Modules.CommandPerDuration]
    else if opt = "commandmaxduration" then [intToString cfg.Modules.CommandMaxDuration]
    else []
  else if cat = "spam" then
    if opt = "imagepressure" then [fmtDecFloat cfg.Spam.ImagePressure]
    else if opt = "pingpressure" then [fmtDecFloat cfg.Spam.PingPressure]
    else if opt = "lengthpressure" then [fmtDecFloat cfg.Spam.LengthPressure]
    else if opt = "repeatpressure" then [fmtDecFloat cfg.Spam.RepeatPressure]
    else if opt = "linepressure" then [fmtDecFloat cfg.Spam.LinePressure]
    else if opt = "basepressure" then [fmtDecFloat cfg.Spam.BasePressure]
    else if opt = "pressuredecay" then [fmtDecFloat cfg.Spam.PressureDecay]
    else if opt = "maxpressure" then [fmtDecFloat cfg.Spam.MaxPressure]
    else if opt = "maxchannelpressure" then
      getConfigListMap .channel .float cfg.Spam.MaxChannelPressure st
    else if opt = "maxremovelookback" then [intToString cfg.Spam.MaxRemoveLookback]
    else if opt = "ignorerole" then [getConfigValue .role (.s cfg.Spam.IgnoreRole) st]
    else if opt = "raidtime" then [intToString cfg.Spam.RaidTime]
    else if opt = "raidsize" then [intToString cfg.Spam.RaidSize]
    else if opt = "autosilence" then [intToString cfg.Spam.AutoSilence]
    else if opt = "lockdownduration" then [intToString cfg.Spam.LockdownDuration]
    else []
  else if cat = "users" then
    if opt = "timezonelocation" then [cfg.Users.TimezoneLocation]
    else if opt = "welcomechannel" then
      [getConfigValue .channel (.s cfg.Users.WelcomeChannel) st]
    else if opt = "welcomemessage" then [cfg.Users.WelcomeMessage]
    else if opt = "silencemessage" then [cfg.Users.SilenceMessage]
    else if opt = "roles" then getConfigListSet .role cfg.Users.Roles st
    else if opt = "notifychannel" then [getConfigValue .channel (.s cfg.Users.NotifyChannel) st]
    else if opt = "trackuserleft" then [fmtScalar (.b cfg.Users.TrackUserLeft)]
    else []
  else if cat = "bucket" then
    if opt = "maxitems" then [intToString cfg.Bucket.MaxItems]
    else if opt = "maxitemlength" then [intToString cfg.Bucket.MaxItemLength]
    else if opt = "maxfighthp" then [intToString cfg.Bucket.MaxFightHP]
    else if opt = "maxfightdamage" then [intToString cfg.Bucket.MaxFightDamage]
    else if opt = "items" then getConfigListSet .str cfg.Bucket.Items st
    else []
  else if cat = "markov" then
    if opt = "maxpmlines" then [intToString cfg.Markov.MaxPMlines]
    else if opt = "maxlines" then [intToString cfg.Markov.MaxLines]
    else if opt = "defaultlines" then [intToString cfg.Markov.DefaultLines]
    else if opt = "usemembernames" then [fmtScalar (.b cfg.Markov.UseMemberNames)]
    else []
  else if cat = "filter" then
    if opt = "filters" then getConfigMapListSet .str .str cfg.Filter.Filters st
    else if opt = "channels" then getConfigMapListSet .str .channel cfg.Filter.Channels st
    else if opt = "responses" then getConfigListMap .str .str cfg.Filter.Responses st
    else if opt = "templates" then getConfigListMap .str .str cfg.Filter.Templates st
    else []
  else if cat = "bored" then
    if opt = "cooldown" then [intToString cfg.Bored.Cooldown]
    else if opt = "commands" then getConfigListSet .str cfg.Bored.Commands st
    else []
  else if cat = "information" then
    if opt = "rules" then getConfigListMap .int .str cfg.Information.Rules st
    else if opt = "hidenegativerules" then [fmtScalar (.b cfg.Information.HideNegativeRules)]
    else []
  else if cat = "log" then
    if opt = "cooldown" then [intToString cfg.Log.Cooldown]
    else if opt = "channel" then [getConfigValue .channel (.s cfg.Log.Channel) st]
    else []
  else if cat = "witty" then
    if opt = "responses" then getConfigListMap .str .str cfg.Witty.Responses st
    else if opt = "cooldown" then [intToString cfg.Witty.Cooldown]
    else []
  else if cat = "scheduler" then
    if opt = "birthdayrole" then [getConfigValue .role (.s cfg.Scheduler.BirthdayRole) st]
    else []
  else if cat = "miscellaneous" then
    if opt = "maxsearchresults" then [intToString cfg.Miscellaneous.MaxSearchResults]
    else []
  else if cat = "status" then
    if opt = "cooldown" then [intToString cfg.Status.Cooldown]
    else if opt = "lines" then getConfigListSet .str cfg.Status.Lines st
    else []
  else if cat = "quote" then
    if opt = "quotes" then getConfigMapListSlice .user cfg.Quote.Quotes st
    else []
  else []

/-- `strconv.Atoi` with the error discarded (`ival, _ := strconv.Atoi(arg[2])`):
an unparsable key leaves the zero int. -/
def atoiOrZero (s : String) : Int :=
  match goParseInt s with
  | .ok v => v
  | .error _ => 0

/-- A keyed lookup in a `map[...]bool` field.  The source's emptiness test
`val == reflect.Zero(val.Type())` compares `reflect.Value` headers: `MapIndex`
copies an element of an indirect type (bool here) into a fresh allocation, so
the header comparison is always false and a present entry renders its value —
"can't find" fires only when the key is absent (`!val.IsValid()`). -/
def keyedBool (m : GoMap String Bool) (lookupKey displayKey : String) : List String :=
  match m.lookup lookupKey with
  | none => ["can't find " ++ displayKey]
  | some b => [fmtScalar (.b b)]

/-- A keyed lookup in a scalar-valued map field; as with `keyedBool`, the
`reflect.Zero` header comparison is false for the indirect element types
(string, int64, float32), so a present entry always renders. -/
def keyedScalar (valKind : FieldKind) (m : GoMap String Scalar)
    (lookupKey displayKey : String) (st : GuildState) : List String :=
  match m.lookup lookupKey with
  | none => ["can't find " ++ displayKey]
  | some v => [getConfigValue valKind v st]

/-- A keyed lookup in a MapList field with set-kind inner collections.  Inner
maps are pointer-shaped, so `MapIndex` returns the map pointer itself and a
stored nil map compares equal to `reflect.Zero`: both an absent key and a
present-but-nil inner map report "can't find". -/
def keyedInner (elemKind : FieldKind) (m : GoMap String (GoMap String Bool))
    (lookupKey displayKey : String) (st : GuildState) : List String :=
  match m.lookup lookupKey with
  | none => ["can't find " ++ displayKey]
  | some inner =>
    if inner.isNil then ["can't find " ++ displayKey] else getConfigListSet elemKind inner st

/-- A keyed lookup in the slice-valued quotes map.  The slice header is
indirect, so a present entry never compares equal to `reflect.Zero`; the
element then reaches `GetConfig`, where `[]string` matches no case of the type
switch and the default `json.Marshal` arm renders the whole slice as a single
JSON line. -/
def keyedSlice (m : GoMap String (List String)) (lookupKey displayKey : String) :
    List String :=
  match m.lookup lookupKey with
  | none => ["can't find " ++ displayKey]
  | some l => ["[" ++ joinWith "," (l.map goQuote) ++ "]"]

/-- The keyed arm of `getConfigCommand.GetSubStruct` (part_000:136-159).  The
case list names `map[string]int64`, `map[string]map[DiscordRole]bool` — types no
current field has — while the `CommandID`- and `ModuleID`-keyed maps of the
`Modules` category match no case and fall to "is not a map.". -/
def getSubStructKeyed (cfg : BotConfig) (st : GuildState) (cat opt key : String) :
    List String :=
  if cat = "bucket" ∧ opt = "items" then keyedBool cfg.Bucket.Items key key
  else if cat = "bored" ∧ opt = "commands" then keyedBool cfg.Bored.Commands key key
  else if cat = "status" ∧ opt = "lines" then keyedBool cfg.Status.Lines key key
  else if cat = "basic" ∧ opt = "aliases" then keyedScalar .str cfg.Basic.Aliases key key st
  else if cat = "filter" ∧ opt = "responses" then
    keyedScalar .str cfg.Filter.Responses key key st
  else if cat = "filter" ∧ opt = "templates" then
    keyedScalar .str cfg.Filter.Templates key key st
  else if cat = "witty" ∧ opt = "responses" then keyedScalar .str cfg.Witty.Responses key key st
  else if cat = "filter" ∧ opt = "channels" then
    keyedInner .channel cfg.Filter.Channels key key st
  else if cat = "filter" ∧ opt = "filters" then keyedInner .str cfg.Filter.Filters key key st
  else if cat = "basic" ∧ opt = "freechannels" then keyedBool cfg.Basic.FreeChannels key key
  else if cat = "spam" ∧ opt = "maxchannelpressure" then
    keyedScalar .float cfg.Spam.MaxChannelPressure key key st
  else if cat = "users" ∧ opt = "roles" then keyedBool cfg.Users.Roles key key
  else if cat = "quote" ∧ opt = "quotes" then keyedSlice cfg.Quote.Quotes key key
  else if cat = "information" ∧ opt = "rules" then
    keyedScalar .str cfg.Information.Rules (intToString (atoiOrZero key)) key st
  else ["is not a map."]

/-- `getConfigCommand.GetSubStruct` (part_000:136-159): with a key argument the
keyed arm runs; without one, `GetConfig` renders the whole option. -/
def GetSubStruct (cfg : BotConfig) (st : GuildState) (cat opt : String)
    (key : Option String) : List String :=
  match key with
  | none => getConfigPath cfg st cat opt
  | some k => getSubStructKeyed cfg st cat opt k

def findCategory (a : String) : Option (String × List String) :=
  botCategories.find? fun co => lowerStr co.1 == a

/-- `getConfigCommand.Process` (part_000:161-263).  The no-argument and
category-only paths return rich embeds through the transport (modelled as the
empty reply); a resolved `Category.Option` yields the "[empty]" / single-line /
multi-line code block, and anything unresolved the long usage message. -/
def processGetConfig (args : List String) (cfg : BotConfig) (info : GuildInfo)
    (st : GuildState) : String :=
  let nf := "```\nThat's not a recognized config option! Type " ++ cfg.Basic.CommandPfx ++
    "getconfig without any arguments to list all possible config options. Use \".\" to specify which category of options you want - for example, \"Basic.ModChannel\". If the option is a map, you can specify the key as well: \"Help.Rules 1\". Using " ++
    cfg.Basic.CommandPfx ++
    "getconfig with just a category will list help for that category, e.g. \"" ++
    cfg.Basic.CommandPfx ++ "getconfig Basic\".```"
  match args with
  | [] => ""
  | a0 :: rest =>
    match FixRequest a0 with
    | .error e => e
    | .ok fixed =>
      let arg := splitN3 (lowerStr fixed)
      let argK := match rest with | [] => arg | b :: _ => arg ++ [b]
      let a := argK.headD ""
      let b := argK.getD 1 ""
      let key := if argK.length > 2 then some (argK.getD 2 "") else none
      match findCategory a with
      | none => nf
      | some co =>
        if argK.length > 1 then
          if co.2.any fun o => lowerStr o == b then
            let lines := GetSubStruct cfg st a b key
            if lines.length = 0 then "```\n" ++ a ++ "." ++ b ++ ": [empty]```"
            else if lines.length = 1 then
              "```\n" ++ a ++ "." ++ b ++ ": " ++ info.sanitize (lines.headD "") ++ "```"
            else
              "```\n--- " ++ a ++ "." ++ b ++ " ---\n" ++
                info.sanitize (joinWith "\n" lines) ++ "```"
          else nf
        else ""

/-- `setConfigCommand.Process` (part_000:94-112).  `info.SaveConfig()` is called
unconditionally after `SetConfig` (the Bool records that the store was saved);
on failure the raw handler message is echoed instead of the success line. -/
def processSetConfig (args : List String) (cfg : BotConfig) (info : GuildInfo) :
    String × BotConfig × Bool :=
  match args with
  | [] => ("```\nNo configuration parameter to look for!```", cfg, false)
  | [_] => ("```\nNo value to set!```", cfg, false)
  | a0 :: a1 :: rest =>
    match FixRequest a0 with
    | .error e => (e, cfg, false)
    | .ok fixed =>
      let r := SetConfig cfg info fixed a1 rest
      if r.2.1 then
        ("```\nSuccessfully set " ++ fixed ++ " to " ++ r.1 ++ ".```", r.2.2, true)
      else ("```\n" ++ r.1 ++ "```", r.2.2, true)

/-! ## Migration (`MigrateSettings`, BotConfig.go:662-1227)

`json.Unmarshal` of the same raw bytes into the current and the legacy shapes is
embedded as a record of decode outcomes, one per target shape; JSON semantics
(tolerant decode, shared keys between shapes) are captured when a concrete blob
is constructed.  External side effects are recorded in an effect list. -/

/-- `legacyBotConfig` (BotConfig.go:662-716), the flat pre-v10 shape.  Reference
ids persisted as numbers (`uint64`) are `Nat`; `map[int]string` keys are
canonical decimal strings as elsewhere in this embedding. -/
structure LegacyBotConfig where
  Version : Int
  LastVersion : Int
  Maxerror : Int
  Maxwit : Int
  Maxbored : Int
  BoredCommands : GoMap String Bool
  MaxPMlines : Int
  Maxquotelines : Int
  Maxsearchresults : Int
  Defaultmarkovlines : Int
  Commandperduration : Int
  Commandmaxduration : Int
  StatusDelayTime : Int
  MaxRaidTime : Int
  RaidSize : Int
  Witty : GoMap String Scalar
  Aliases : GoMap String Scalar
  MaxBucket : Int
  MaxBucketLength : Int
  MaxFightHP : Int
  MaxFightDamage : Int
  MaxImageSpam : Int
  MaxAttachSpam : Int
  MaxPingSpam : Int
  MaxMessageSpam : GoMap Int Int
  MaxSpamRemoveLookback : Int
  IgnoreInvalidCommands : Bool
  UseMemberNames : Bool
  Importable : Bool
  HideNegativeRules : Bool
  Timezone : Int
  TimezoneLocation : String
  AutoSilence : Int
  AlertRole : Nat
  SilentRole : Nat
  LogChannel : Nat
  ModChannel : Nat
  WelcomeChannel : Nat
  WelcomeMessage : String
  SilenceMessage : String
  BirthdayRole : Nat
  SpoilChannels : List Nat
  FreeChannels : GoMap String Bool
  Command_roles : GoMap String (GoMap String Bool)
  Command_channels : GoMap String (GoMap String Bool)
  Command_limits : GoMap String Scalar
  Command_disabled : GoMap String Bool
  Module_disabled : GoMap String Bool
  Module_channels : GoMap String (GoMap String Bool)
  Collections : GoMap String (GoMap String Bool)
  Groups : GoMap String (GoMap String Bool)
  Quotes : GoMap Nat (List String)
  Rules : GoMap String Scalar

structure LegacyV10Basic where
  Commandperduration : Int
  Commandmaxduration : Int

/-- `legacyBotConfigV10` (BotConfig.go:718-723). -/
structure LegacyBotConfigV10 where
  Basic : LegacyV10Basic

structure LegacyV12Spam where
  MaxImages : Int
  MaxPings : Int

/-- `legacyBotConfigV12` (BotConfig.go:725-730). -/
structure LegacyBotConfigV12 where
  Spam : LegacyV12Spam

structure LegacyV13Basic where
  Groups : GoMap String (GoMap String Bool)

/-- `legacyBotConfigV13` (BotConfig.go:732-736): groups live under `basic.groups`. -/
structure LegacyBotConfigV13 where
  Basic : LegacyV13Basic

structure LegacyV19Basic where
  Collections : GoMap String (GoMap String Bool)

/-- `legacyBotConfigV19` (BotConfig.go:738-742): collections under `basic.collections`. -/
structure LegacyBotConfigV19 where
  Basic : LegacyV19Basic

structure LegacyV20Spam where
  SilentRole : String
  SilenceMessage : String

structure LegacyV20Basic where
  AlertRole : String
  TrackUserLeft : Bool

structure LegacyV20Search where
  MaxResults : Int

structure LegacyV20Spoiler where
  Channels : List String

structure LegacyV20Schedule where
  BirthdayRole : String

/-- `legacyBotConfigV20` (BotConfig.go:744-763): note the top-level
`collections` key, shared with the flat legacy layout. -/
structure LegacyBotConfigV20 where
  Collections : GoMap String (GoMap String Bool)
  Spam : LegacyV20Spam
  Basic : LegacyV20Basic
  Search : LegacyV20Search
  Spoiler : LegacyV20Spoiler
  Schedule : LegacyV20Schedule

/-- A persisted blob, given by the outcome of `json.Unmarshal` of its bytes into
each shape `MigrateSettings` decodes. -/
structure RawBlob where
  decodeCurrent : Except String BotConfig
  decodeLegacy : Except String LegacyBotConfig
  decodeV10 : Except String LegacyBotConfigV10
  decodeV12 : Except String LegacyBotConfigV12
  decodeV13 : Except String LegacyBotConfigV13
  decodeV19 : Except String LegacyBotConfigV19
  decodeV20 : Except String LegacyBotConfigV20

/-- External side effects the migration performs. -/
inductive Effect where
  | roleCreated (id name : String)
  | memberRoleAdd (user roleId : String)
  | scheduleUpdate (rowId : Nat) (data : String)
  | tagImport (tag : String)
  | saveConfig
deriving DecidableEq

/-- The collaborators migration calls out to (spec §6): Directory parsers used
with a nil guild, role lookup/creation/editing, the schedule rows of the
secondary store (`none` models a Prepare/Query error), and float32 arithmetic
`(a-b)/k`, left uninterpreted because binary float rounding is outside this
embedding (no claim depends on those values). -/
structure MigrateEnv where
  parseChannelNil : String → Except String String
  parseRoleNil : String → Except String String
  roleByNameExists : String → Bool
  guildRoleCreate : Nat → Except String String
  guildRoleEdit : String → String → Except String Unit
  scheduleRows : Option (List (Nat × String))
  f32Expr : DecFloat → DecFloat → Int → DecFloat

/-- Modelled from the spec: references are string-backed identifiers; the
`NewDiscordRole/Channel/User` constructors (outside this slice) render a legacy
numeric id as its decimal string. -/
def NewDiscordRole (v : Nat) : String := natToString v

def NewDiscordChannel (v : Nat) : String := natToString v

def NewDiscordUser (v : Nat) : String := natToString v

/-- `restrictCommand` (BotConfig.go:765-772): pre-populate a command's role
restriction with the moderator role, unless the command already has one or the
moderator role is empty. -/
def restrictCommand (v : String) (roles : GoMap String (GoMap String Bool))
    (modrole : String) : GoMap String (GoMap String Bool) :=
  match roles.lookup v with
  | some _ => roles
  | none =>
    if modrole ≠ "" then roles.set v (GoMap.empty.set modrole true)
    else roles

def restrictAll (cmds : List String) (roles : GoMap String (GoMap String Bool))
    (modrole : String) : GoMap String (GoMap String Bool) :=
  cmds.foldl (fun acc c => restrictCommand c acc modrole) roles

/-- The v<10 copy loops: convert a legacy map through a Directory parser,
dropping entries whose key fails to parse. -/
def convKeysBool (parse : String → Except String String) (m : GoMap String Bool) :
    GoMap String Bool :=
  m.entries.foldl (fun acc kv =>
    match parse kv.1 with
    | .ok k => acc.set k kv.2
    | .error _ => acc) GoMap.empty

def convNested (parse : String → Except String String)
    (m : GoMap String (GoMap String Bool)) : GoMap String (GoMap String Bool) :=
  m.entries.foldl (fun acc kv => acc.set kv.1 (convKeysBool parse kv.2)) GoMap.empty

def keysToTrue (m : GoMap String Bool) : GoMap String Bool :=
  m.entries.foldl (fun acc kv => acc.set kv.1 true) GoMap.empty

def copyMapScalar (m : GoMap String Scalar) : GoMap String Scalar :=
  m.entries.foldl (fun acc kv => acc.set kv.1 kv.2) GoMap.empty

def convQuotes (m : GoMap Nat (List String)) : GoMap String (List String) :=
  m.entries.foldl (fun acc kv => acc.set (NewDiscordUser kv.1) kv.2) GoMap.empty

/-- The in-place fixups the `Version < 10` step applies to the decoded legacy
struct before copying (BotConfig.go:789-818). -/
def applyLegacyFixups (legacy : LegacyBotConfig) : LegacyBotConfig :=
  let legacy :=
    if legacy.Version = 0 then
      { legacy with
        Command_roles :=
          if legacy.Command_roles.len = 0 then GoMap.empty else legacy.Command_roles
        MaxImageSpam := 3
        MaxAttachSpam := 1
        MaxPingSpam := 24
        MaxMessageSpam := ⟨false, [(1, 4), (9, 10), (12, 15)]⟩ }
    else legacy
  let legacy :=
    if legacy.Version ≤ 1 then
      { legacy with
        Aliases :=
          (if legacy.Aliases.len = 0 then GoMap.empty else legacy.Aliases).set "cute"
            (.s "pick cute") }
    else legacy
  let legacy :=
    if legacy.Version ≤ 3 then { legacy with BoredCommands := GoMap.empty } else legacy
  if legacy.Version ≤ 5 then
    { legacy with
      TimezoneLocation :=
        (if legacy.Timezone < 0 then "Etc/GMT+" else "Etc/GMT") ++
          intToString (-legacy.Timezone) }
  else legacy

/-- The `Version < 10` copy (BotConfig.go:820-919): move every legacy field to
its place in the current tree and restrict the version-10 sensitive commands. -/
def applyLegacyCopy (env : MigrateEnv) (legacy0 : LegacyBotConfig) (cfg : BotConfig) :
    BotConfig :=
  let legacy := applyLegacyFixups legacy0
  let cfg :=
    { cfg with
      Basic.ModRole := NewDiscordRole legacy.AlertRole
      Basic.Aliases := legacy.Aliases
      Filter.Filters := legacy.Collections
      Basic.FreeChannels := convKeysBool env.parseChannelNil legacy.FreeChannels
      Basic.IgnoreInvalidCommands := legacy.IgnoreInvalidCommands
      Basic.Importable := legacy.Importable
      Basic.ModChannel := NewDiscordChannel legacy.ModChannel
      Basic.SilenceRole := NewDiscordRole legacy.SilentRole
      Modules.CommandChannels := convNested env.parseChannelNil legacy.Command_channels
      Modules.CommandDisabled := keysToTrue legacy.Command_disabled
      Modules.CommandLimits := copyMapScalar legacy.Command_limits
      Modules.CommandRoles := convNested env.parseRoleNil legacy.Command_roles
      Modules.CommandMaxDuration := legacy.Commandmaxduration
      Modules.CommandPerDuration := legacy.Commandperduration
      Modules.Channels := convNested env.parseChannelNil legacy.Module_channels
      Modules.Disabled := keysToTrue legacy.Module_disabled
      Spam.AutoSilence := legacy.AutoSilence
      Spam.RaidTime := legacy.MaxRaidTime
      Spam.MaxRemoveLookback := legacy.MaxSpamRemoveLookback
      Spam.RaidSize := legacy.RaidSize
      Bucket.MaxItems := legacy.MaxBucket
      Bucket.MaxItemLength := legacy.MaxBucketLength
      Bucket.MaxFightDamage := legacy.MaxFightDamage
      Bucket.MaxFightHP := legacy.MaxFightHP
      Markov.DefaultLines := legacy.Defaultmarkovlines
      Markov.MaxPMlines := legacy.MaxPMlines
      Markov.MaxLines := legacy.Maxquotelines
      Markov.UseMemberNames := legacy.UseMemberNames
      Users.TimezoneLocation := legacy.TimezoneLocation
      Users.WelcomeChannel := NewDiscordChannel legacy.WelcomeChannel
      Users.WelcomeMessage := legacy.WelcomeMessage
      Users.SilenceMessage := legacy.SilenceMessage
      Bored.Commands := legacy.BoredCommands
      Bored.Cooldown := legacy.Maxbored
      Information.HideNegativeRules := legacy.HideNegativeRules
      Information.Rules := legacy.Rules
      Log.Channel := NewDiscordChannel legacy.LogChannel
      Log.Cooldown := legacy.Maxerror
      Witty.Cooldown := legacy.Maxwit
      Witty.Responses := legacy.Witty
      Scheduler.BirthdayRole := NewDiscordRole legacy.BirthdayRole
      Miscellaneous.MaxSearchResults := legacy.Maxsearchresults
      Filter.Channels :=
        GoMap.empty.set "spoiler"
          (legacy.SpoilChannels.foldl
            (fun acc v => acc.set (NewDiscordChannel v) true) GoMap.empty)
      Status.Cooldown := legacy.StatusDelayTime
      Quote.Quotes := convQuotes legacy.Quotes }
  let newcommands := ["addevent", "addbirthday", "autosilence", "silence", "unsilence",
    "wipewelcome", "new", "addquote", "removequote", "removealias", "delete",
    "createpoll", "deletepoll", "addoption"]
  { cfg with
    Modules.CommandRoles := restrictAll newcommands cfg.Modules.CommandRoles cfg.Basic.ModRole }

/-- The `Version == 10` step (BotConfig.go:922-931): recover the command rate
limits from their pre-v11 location; a decode failure is only printed. -/
def applyV10 (blob : RawBlob) (cfg : BotConfig) : BotConfig :=
  match blob.decodeV10 with
  | .error _ => cfg
  | .ok legacy =>
    { cfg with
      Modules.CommandMaxDuration := legacy.Basic.Commandmaxduration
      Modules.CommandPerDuration := legacy.Basic.Commandperduration }

/-- The pressure defaults the `Version <= 12` step seeds (BotConfig.go:938-944). -/
def v12defaults (env : MigrateEnv) (cfg : BotConfig) : BotConfig :=
  { cfg with
    Spam.BasePressure := ⟨10, 0⟩
    Spam.MaxPressure := ⟨60, 0⟩
    Spam.ImagePressure := env.f32Expr ⟨60, 0⟩ ⟨10, 0⟩ 6
    Spam.PingPressure := env.f32Expr ⟨60, 0⟩ ⟨10, 0⟩ 24
    Spam.LengthPressure := env.f32Expr ⟨60, 0⟩ ⟨10, 0⟩ (2000 * 4)
    Spam.RepeatPressure := ⟨10, 0⟩
    Spam.PressureDecay := ⟨25, 1⟩ }

/-- Rescaling from the legacy image-spam limit (BotConfig.go:949-953). -/
def v12img (legacy : LegacyBotConfigV12) (env : MigrateEnv) (cfg : BotConfig) : BotConfig :=
  if legacy.Spam.MaxImages > 0 then
    { cfg with
      Spam.ImagePressure :=
        env.f32Expr cfg.Spam.MaxPressure cfg.Spam.BasePressure (legacy.Spam.MaxImages + 1) }
  else { cfg with Spam.ImagePressure := ⟨0, 0⟩ }

/-- Rescaling from the legacy ping-spam limit (BotConfig.go:954-958). -/
def v12ping (legacy : LegacyBotConfigV12) (env : MigrateEnv) (cfg : BotConfig) : BotConfig :=
  if legacy.Spam.MaxPings > 0 then
    { cfg with
      Spam.PingPressure :=
        env.f32Expr cfg.Spam.MaxPressure cfg.Spam.BasePressure (legacy.Spam.MaxPings + 1) }
  else { cfg with Spam.PingPressure := ⟨0, 0⟩ }

/-- The `Version <= 12` step (BotConfig.go:937-962): seed the pressure defaults,
then rescale from the legacy spam limits when they decode. -/
def applyV12 (blob : RawBlob) (env : MigrateEnv) (cfg : BotConfig) : BotConfig :=
  match blob.decodeV12 with
  | .error _ => v12defaults env cfg
  | .ok legacy => v12ping legacy env (v12img legacy env (v12defaults env cfg))

def splitCharAux (sep : Char) : List Char → List Char → List (List Char)
  | [], acc => [acc.reverse]
  | c :: cs, acc =>
    if c = sep then acc.reverse :: splitCharAux sep cs [] else splitCharAux sep cs (c :: acc)

/-- `strings.SplitN(s, "|", 2)`. -/
def splitBar2 (s : String) : List String :=
  match splitCharAux '|' s.data [] with
  | [] => []
  | [a] => [⟨a⟩]
  | a :: rest => [⟨a⟩, joinWith "|" (rest.map fun l => ⟨l⟩)]

/-- `strings.Split(s, "+")`. -/
def splitPlus (s : String) : List String :=
  (splitCharAux '+' s.data []).map fun l => ⟨l⟩

/-- The schedule row rewrite of the v13 step (BotConfig.go:1012-1020): replace
legacy group names by the new role mentions. -/
def migrateScheduleRow (idmap : GoMap String String) (dat : String) : String :=
  let datas := splitBar2 dat
  let groups := splitPlus (datas.headD "")
  let groups := groups.map fun g =>
    match idmap.lookup (lowerStr g) with
    | some rid => "<@&" ++ rid ++ ">"
    | none => g
  joinWith " " groups ++ "|" ++ (datas.getD 1 "")

/-- One group of the v13 role-creation loop (BotConfig.go:971-996); the state is
(config, idmap, effects, creation counter). -/
def v13Group (env : MigrateEnv)
    (st : BotConfig × GoMap String String × List Effect × Nat)
    (kv : String × GoMap String Bool) :
    BotConfig × GoMap String String × List Effect × Nat :=
  let (cfg, idmap, fx, ctr) := st
  let role := if env.roleByNameExists kv.1 then "sb-" ++ kv.1 else kv.1
  match (env.guildRoleCreate ctr).bind fun rid =>
      (env.guildRoleEdit rid role).map fun _ => rid with
  | .error _ => (cfg, idmap, fx, ctr + 1)
  | .ok rid =>
    let idmap := idmap.set (lowerStr kv.1) rid
    let cfg :=
      match env.parseRoleNil rid with
      | .ok id => { cfg with Users.Roles := cfg.Users.Roles.set id true }
      | .error _ => cfg
    let fx := fx ++ [.roleCreated rid role] ++
      kv.2.keys.map fun u => Effect.memberRoleAdd u rid
    (cfg, idmap, fx, ctr + 1)

/-- The schedule-row rewrite driven by the secondary store (BotConfig.go:998-1027);
`none` models a Prepare/Query error, which is only printed. -/
def v13schedule (env : MigrateEnv) (st : BotConfig × GoMap String String × List Effect × Nat) :
    BotConfig × List Effect :=
  match env.scheduleRows with
  | none => (st.1, st.2.2.1)
  | some rows =>
    (st.1, st.2.2.1 ++ rows.map fun r => Effect.scheduleUpdate r.1 (migrateScheduleRow st.2.1 r.2))

/-- The `Version <= 13` step (BotConfig.go:964-1031): rebuild `Users.Roles` from
the legacy `basic.groups`, creating one role per group, and rewrite schedule
rows that referenced group names.  A decode failure skips the whole step. -/
def applyV13 (blob : RawBlob) (env : MigrateEnv) (cfg : BotConfig) :
    BotConfig × List Effect :=
  match blob.decodeV13 with
  | .error _ => (cfg, [])
  | .ok legacy =>
    v13schedule env
      (legacy.Basic.Groups.entries.foldl (v13Group env)
        ({ cfg with Users.Roles := GoMap.empty }, GoMap.empty, [], 0))

/-- The filter-map initialisation of the v19 step (BotConfig.go:1063-1065). -/
def v19filtersInit (cfg : BotConfig) : BotConfig :=
  if cfg.Filter.Filters.len = 0 then { cfg with Filter.Filters := GoMap.empty } else cfg

/-- Splitting the legacy `basic.collections` into the dedicated stores
(BotConfig.go:1069-1076); a missing key yields Go's zero value, the nil map. -/
def v19split (legacy : LegacyBotConfigV19) (cfg : BotConfig) : BotConfig :=
  { cfg with
    Bucket.Items := ((legacy.Basic.Collections.lookup "bucket").getD GoMap.nilM)
    Filter.Filters :=
      ((cfg.Filter.Filters.set "emote"
        ((legacy.Basic.Collections.lookup "emote").getD GoMap.nilM)).set "spoiler"
        ((legacy.Basic.Collections.lookup "spoiler").getD GoMap.nilM))
    Status.Lines := ((legacy.Basic.Collections.lookup "status").getD GoMap.nilM) }

/-- The database tag import of the remaining collections (BotConfig.go:1078-1095). -/
def v19tags (legacy : LegacyBotConfigV19) : List Effect :=
  (((((legacy.Basic.Collections.del "bucket").del "emote").del "status").del
      "spoiler").entries).foldl
    (fun fx (kv : String × GoMap String Bool) =>
      if kv.2.len > 0 then fx ++ [Effect.tagImport kv.1] else fx) []

/-- The set-command restrictions closing the v19 step (BotConfig.go:1100-1102). -/
def v19restrict (cfg : BotConfig) : BotConfig :=
  { cfg with
    Modules.CommandRoles :=
      restrictAll ["addset", "removeset", "searchset"] cfg.Modules.CommandRoles
        cfg.Basic.ModRole }

/-- The `Version <= 19` step (BotConfig.go:1061-1103). -/
def applyV19 (blob : RawBlob) (cfg : BotConfig) : BotConfig × List Effect :=
  match blob.decodeV19 with
  | .error _ => (v19restrict (v19filtersInit cfg), [])
  | .ok legacy => (v19restrict (v19split legacy (v19filtersInit cfg)), v19tags legacy)

/-- The key renames of the v20 step (BotConfig.go:1193-1205), iterating the keys
of `Modules.Channels` (insertion order here; Go's map order is unspecified). -/
def renameModuleKeys (m : GoMap String (GoMap String Bool)) :
    GoMap String (GoMap String Bool) :=
  m.keys.foldl (fun acc k =>
    if k = "schedule" then (acc.set "scheduler" ((acc.lookup k).getD GoMap.nilM)).del k
    else if k = "anti-spam" then (acc.set "spam" ((acc.lookup k).getD GoMap.nilM)).del k
    else if k = "help/about" then
      (acc.set "information" ((acc.lookup k).getD GoMap.nilM)).del k
    else acc) m

/-- The second rename loop (BotConfig.go:1207-1219): it ranges over
`Modules.Disabled` but reads and mutates `Modules.Channels`, as the source does. -/
def renameDisabledKeys (disabled : GoMap String Bool)
    (channels : GoMap String (GoMap String Bool)) : GoMap String (GoMap String Bool) :=
  disabled.keys.foldl (fun acc k =>
    if k = "schedule" then (acc.set "scheduler" ((acc.lookup k).getD GoMap.nilM)).del k
    else if k = "anti-spam" then (acc.set "spam" ((acc.lookup k).getD GoMap.nilM)).del k
    else if k = "help/about" then
      (acc.set "information" ((acc.lookup k).getD GoMap.nilM)).del k
    else acc) channels

/-- The legacy field copy opening the v20 step (BotConfig.go:1117-1133). -/
def v20copy (legacy : LegacyBotConfigV20) (cfg : BotConfig) : BotConfig :=
  { cfg with
    Basic.ModRole := legacy.Basic.AlertRole
    Miscellaneous.MaxSearchResults := legacy.Search.MaxResults
    Scheduler.BirthdayRole := legacy.Schedule.BirthdayRole
    Filter.Filters := GoMap.empty
    Filter.Channels := GoMap.empty
    Filter.Responses := GoMap.empty
    Filter.Templates := GoMap.empty
    Bucket.Items := GoMap.empty
    Status.Lines := GoMap.empty
    Users.TrackUserLeft := legacy.Basic.TrackUserLeft
    Users.SilenceMessage := legacy.Spam.SilenceMessage
    Basic.SilenceRole := legacy.Spam.SilentRole }

/-- Import of the legacy "bucket" collection (BotConfig.go:1135-1139). -/
def v20bucket (legacy : LegacyBotConfigV20) (cfg : BotConfig) : BotConfig :=
  match legacy.Collections.lookup "bucket" with
  | some bucket =>
    { cfg with
      Bucket.Items :=
        bucket.entries.foldl (fun acc (kv : String × Bool) => acc.set kv.1 kv.2)
          cfg.Bucket.Items }
  | none => cfg

/-- Import of the legacy "status" collection (BotConfig.go:1141-1145). -/
def v20status (legacy : LegacyBotConfigV20) (cfg : BotConfig) : BotConfig :=
  match legacy.Collections.lookup "status" with
  | some status =>
    { cfg with
      Status.Lines :=
        status.entries.foldl (fun acc (kv : String × Bool) => acc.set kv.1 kv.2)
          cfg.Status.Lines }
  | none => cfg

/-- Recovering `Users.NotifyChannel` from the `AutoSilence` sentinel
(BotConfig.go:1147-1151). -/
def v20notify (cfg : BotConfig) : BotConfig :=
  if cfg.Spam.AutoSilence = -2 then
    { cfg with Users.NotifyChannel := cfg.Log.Channel }
  else if cfg.Spam.AutoSilence ≠ 0 then
    { cfg with Users.NotifyChannel := cfg.Basic.ModChannel }
  else cfg

/-- Clamping a negative `AutoSilence` to zero (BotConfig.go:1152-1154). -/
def v20clamp (cfg : BotConfig) : BotConfig :=
  if cfg.Spam.AutoSilence < 0 then { cfg with Spam.AutoSilence := 0 } else cfg

/-- Rebuilding the "spoiler" filter from the legacy collection and channel list
(BotConfig.go:1156-1173). -/
def v20spoiler (legacy : LegacyBotConfigV20) (cfg : BotConfig) : BotConfig :=
  if (match legacy.Collections.lookup "spoiler" with
      | some sp => sp.len
      | none => 0) > 0 ∨ legacy.Spoiler.Channels.length > 0 then
    { cfg with
      Filter.Filters :=
        cfg.Filter.Filters.set "spoiler"
          (match legacy.Collections.lookup "spoiler" with
           | some sp =>
             sp.entries.foldl (fun acc (kv : String × Bool) => acc.set kv.1 kv.2)
               GoMap.empty
           | none => GoMap.empty)
      Filter.Channels :=
        cfg.Filter.Channels.set "spoiler"
          (legacy.Spoiler.Channels.foldl (fun acc v => acc.set v true) GoMap.empty)
      Filter.Responses :=
        cfg.Filter.Responses.set "spoiler"
          (.s "[](/nospoilers) ```\nNO SPOILERS! Posting spoilers is a bannable offense. All discussion about new and future content MUST be in #mylittlespoilers.```") }
  else cfg

/-- Rebuilding the "emote" filter from the legacy collection
(BotConfig.go:1175-1191). -/
def v20emote (legacy : LegacyBotConfigV20) (cfg : BotConfig) : BotConfig :=
  match legacy.Collections.lookup "emote" with
  | some emotes =>
    if emotes.len > 0 then
      { cfg with
        Filter.Filters :=
          cfg.Filter.Filters.set "emote"
            (emotes.entries.foldl (fun acc (kv : String × Bool) => acc.set kv.1 kv.2)
              GoMap.empty)
        Filter.Channels := cfg.Filter.Channels.set "emote" GoMap.empty
        Filter.Responses :=
          cfg.Filter.Responses.set "emote"
            (.s "```\nThat emote isn't allowed here! Try to avoid using large or disturbing emotes, as they can be problematic.```")
        Filter.Templates :=
          cfg.Filter.Templates.set "emote" (.s "\\[\\]\\(\\/r?%%[-) \"]") }
    else cfg
  | none => cfg

/-- The decode-gated part of the v20 step (BotConfig.go:1106-1191): a decode
failure skips every transformation above. -/
def v20decoded (blob : RawBlob) (cfg : BotConfig) : BotConfig :=
  match blob.decodeV20 with
  | .error _ => cfg
  | .ok legacy =>
    v20emote legacy (v20spoiler legacy (v20clamp (v20notify
      (v20status legacy (v20bucket legacy (v20copy legacy cfg))))))

/-- The "0"-to-empty normalisations of the v20 step (BotConfig.go:1193-1204),
one per field, applied in source order. -/
def normModRole (cfg : BotConfig) : BotConfig :=
  if cfg.Basic.ModRole = "0" then { cfg with Basic.ModRole := "" } else cfg

def normModChannel (cfg : BotConfig) : BotConfig :=
  if cfg.Basic.ModChannel = "0" then { cfg with Basic.ModChannel := "" } else cfg

def normSilenceRole (cfg : BotConfig) : BotConfig :=
  if cfg.Basic.SilenceRole = "0" then { cfg with Basic.SilenceRole := "" } else cfg

def normIgnoreRole (cfg : BotConfig) : BotConfig :=
  if cfg.Spam.IgnoreRole = "0" then { cfg with Spam.IgnoreRole := "" } else cfg

def normWelcomeChannel (cfg : BotConfig) : BotConfig :=
  if cfg.Users.WelcomeChannel = "0" then { cfg with Users.WelcomeChannel := "" } else cfg

def normNotifyChannel (cfg : BotConfig) : BotConfig :=
  if cfg.Users.NotifyChannel = "0" then { cfg with Users.NotifyChannel := "" } else cfg

def normLogChannel (cfg : BotConfig) : BotConfig :=
  if cfg.Log.Channel = "0" then { cfg with Log.Channel := "" } else cfg

def normBirthdayRole (cfg : BotConfig) : BotConfig :=
  if cfg.Scheduler.BirthdayRole = "0" then { cfg with Scheduler.BirthdayRole := "" }
  else cfg

def applyV20Norms (cfg : BotConfig) : BotConfig :=
  normBirthdayRole (normLogChannel (normNotifyChannel (normWelcomeChannel
    (normIgnoreRole (normSilenceRole (normModChannel (normModRole cfg)))))))

/-- The closing module-key renames (BotConfig.go:1193-1219): the first loop
rewrites `Modules.Channels`; the second ranges `Modules.Disabled` but reads and
mutates `Modules.Channels`, as the source does. -/
def applyV20Renames (cfg : BotConfig) : BotConfig :=
  { cfg with
    Modules.Channels :=
      renameDisabledKeys cfg.Modules.Disabled (renameModuleKeys cfg.Modules.Channels) }

/-- The `Version <= 20` step (BotConfig.go:1105-1220). -/
def applyV20 (blob : RawBlob) (cfg : BotConfig) : BotConfig :=
  applyV20Renames (applyV20Norms (v20decoded blob cfg))

/-- A migration outcome: the loaded configuration and the side effects run. -/
structure MigrateResult where
  config : BotConfig
  effects : List Effect

/-- The version-gated steps (BotConfig.go:922-1220) as transformations of the
configuration paired with the accumulated side effects. -/
def step10 (blob : RawBlob) (s : BotConfig × List Effect) : BotConfig × List Effect :=
  if s.1.Version = 10 then (applyV10 blob s.1, s.2) else s

def step11 (s : BotConfig × List Effect) : BotConfig × List Effect :=
  if s.1.Version ≤ 11 then
    ({ s.1 with
       Modules.CommandRoles :=
         restrictCommand "getaudit" s.1.Modules.CommandRoles s.1.Basic.ModRole }, s.2)
  else s

def step12 (blob : RawBlob) (env : MigrateEnv) (s : BotConfig × List Effect) :
    BotConfig × List Effect :=
  if s.1.Version ≤ 12 then (applyV12 blob env s.1, s.2) else s

def step13 (blob : RawBlob) (env : MigrateEnv) (s : BotConfig × List Effect) :
    BotConfig × List Effect :=
  if s.1.Version ≤ 13 then
    ((applyV13 blob env s.1).1, s.2 ++ (applyV13 blob env s.1).2)
  else s

def step14 (s : BotConfig × List Effect) : BotConfig × List Effect :=
  if s.1.Version ≤ 14 then
    ({ s.1 with
       Modules.CommandRoles :=
         restrictAll ["addrole", "removerole", "deleterole"] s.1.Modules.CommandRoles
           s.1.Basic.ModRole }, s.2)
  else s

def step15 (s : BotConfig × List Effect) : BotConfig × List Effect :=
  if s.1.Version ≤ 15 then
    ({ s.1 with
       Modules.CommandRoles :=
         restrictCommand "bannewcomers" s.1.Modules.CommandRoles s.1.Basic.ModRole
       Spam.LockdownDuration := 120 }, s.2)
  else s

def step16 (s : BotConfig × List Effect) : BotConfig × List Effect :=
  if s.1.Version ≤ 16 then ({ s.1 with Basic.CommandPfx := "!" }, s.2) else s

def step17 (s : BotConfig × List Effect) : BotConfig × List Effect :=
  if s.1.Version ≤ 17 then ({ s.1 with SetupDone := true }, s.2) else s

def step18 (env : MigrateEnv) (s : BotConfig × List Effect) : BotConfig × List Effect :=
  if s.1.Version ≤ 18 then
    ({ s.1 with
       Modules.CommandRoles :=
         restrictAll ["banraid", "getraid", "wipe", "bannewcomers", "getpressure"]
           s.1.Modules.CommandRoles s.1.Basic.ModRole
       Spam.LinePressure := env.f32Expr s.1.Spam.MaxPressure s.1.Spam.BasePressure 70 },
     s.2)
  else s

def step19 (blob : RawBlob) (s : BotConfig × List Effect) : BotConfig × List Effect :=
  if s.1.Version ≤ 19 then ((applyV19 blob s.1).1, s.2 ++ (applyV19 blob s.1).2) else s

def step20 (blob : RawBlob) (s : BotConfig × List Effect) : BotConfig × List Effect :=
  if s.1.Version ≤ 20 then (applyV20 blob s.1, s.2) else s

/-- The final version stamp and save (BotConfig.go:1222-1226). -/
def finalizeMig (s : BotConfig × List Effect) : MigrateResult :=
  if s.1.Version ≠ ConfigVersion then
    ⟨{ s.1 with Version := ConfigVersion }, s.2 ++ [.saveConfig]⟩
  else ⟨s.1, s.2⟩

/-- The version-gated pipeline from version 10 on (BotConfig.go:922-1226),
followed by the final version stamp and save. -/
def migrateFrom10 (blob : RawBlob) (env : MigrateEnv) (cfg : BotConfig) : MigrateResult :=
  finalizeMig (step20 blob (step19 blob (step18 env (step17 (step16 (step15 (step14
    (step13 blob env (step12 blob env (step11 (step10 blob (cfg, []))))))))))))

/-- `MigrateSettings` (BotConfig.go:775-1227): decode the blob into the current
shape (a failure here is fatal), run the `Version < 10` flat-shape copy when
applicable (its decode failure is also returned as an error), then the
version-gated steps, whose own decode failures are merely printed. -/
def MigrateSettings (blob : RawBlob) (env : MigrateEnv) : Except String MigrateResult :=
  match blob.decodeCurrent with
  | .error e => .error e
  | .ok cfg0 =>
    if cfg0.Version < 10 then
      match blob.decodeLegacy with
      | .error e => .error e
      | .ok legacy => .ok (migrateFrom10 blob env (applyLegacyCopy env legacy cfg0))
    else .ok (migrateFrom10 blob env cfg0)

/-- A `legacyBotConfig` with every field at its zero value (what decoding an
empty object would produce); concrete version-9 blobs are built from it. -/
def zeroLegacy : LegacyBotConfig where
  Version := 0
  LastVersion := 0
  Maxerror := 0
  Maxwit := 0
  Maxbored := 0
  BoredCommands := GoMap.nilM
  MaxPMlines := 0
  Maxquotelines := 0
  Maxsearchresults := 0
  Defaultmarkovlines := 0
  Commandperduration := 0
  Commandmaxduration := 0
  StatusDelayTime := 0
  MaxRaidTime := 0
  RaidSize := 0
  Witty := GoMap.nilM
  Aliases := GoMap.nilM
  MaxBucket := 0
  MaxBucketLength := 0
  MaxFightHP := 0
  MaxFightDamage := 0
  MaxImageSpam := 0
  MaxAttachSpam := 0
  MaxPingSpam := 0
  MaxMessageSpam := GoMap.nilM
  MaxSpamRemoveLookback := 0
  IgnoreInvalidCommands := false
  UseMemberNames := false
  Importable := false
  HideNegativeRules := false
  Timezone := 0
  TimezoneLocation := ""
  AutoSilence := 0
  AlertRole := 0
  SilentRole := 0
  LogChannel := 0
  ModChannel := 0
  WelcomeChannel := 0
  WelcomeMessage := ""
  SilenceMessage := ""
  BirthdayRole := 0
  SpoilChannels := []
  FreeChannels := GoMap.nilM
  Command_roles := GoMap.nilM
  Command_channels := GoMap.nilM
  Command_limits := GoMap.nilM
  Command_disabled := GoMap.nilM
  Module_disabled := GoMap.nilM
  Module_channels := GoMap.nilM
  Collections := GoMap.nilM
  Groups := GoMap.nilM
  Quotes := GoMap.nilM
  Rules := GoMap.nilM

/-- The decode outcomes of a flat, version-9-shaped blob (the `legacyBotConfig`
layout): the current shape recovers only `version`/`lastversion` (no other flat
key matches a current top-level tag); the v10/v12/v13/v19 shapes find none of
their nested objects and decode to zero values; the v20 shape picks up the
top-level `collections` key it shares with the flat layout. -/
def v9Blob (d : LegacyBotConfig) : RawBlob where
  decodeCurrent := .ok { zeroConfig with Version := d.Version, LastVersion := d.LastVersion }
  decodeLegacy := .ok d
  decodeV10 := .ok ⟨⟨0, 0⟩⟩
  decodeV12 := .ok ⟨⟨0, 0⟩⟩
  decodeV13 := .ok ⟨⟨GoMap.nilM⟩⟩
  decodeV19 := .ok ⟨⟨GoMap.nilM⟩⟩
  decodeV20 := .ok ⟨d.Collections, ⟨"", ""⟩, ⟨"", false⟩, ⟨0⟩, ⟨[]⟩, ⟨""⟩⟩

/-! ## Shared fixtures and helper lemmas for the claims -/

/-- A concrete guild context for witnesses: one module, one registered command,
identity Directory resolution, identity sanitisation. -/
def cInfo : GuildInfo :=
  ⟨["Spam"], ["ping"], fun s => .ok s, fun s => .ok s, fun s => .ok s,
    fun k => "Deleted " ++ k, id⟩

/-- A concrete guild state for witnesses: no resolvable names. -/
def cSt : GuildState := ⟨fun _ => none, fun _ => none, fun _ => none⟩

/-- A concrete migration environment for counterexamples. -/
def cEnv : MigrateEnv :=
  ⟨fun s => .ok s, fun s => .ok s, fun _ => false, fun n => .ok ("r" ++ natToString n),
    fun _ _ => .ok (), none, fun _ _ _ => ⟨0, 0⟩⟩

theorem NewDiscordRole_ne_empty (v : Nat) : NewDiscordRole v ≠ "" := by
  unfold NewDiscordRole natToString
  intro h
  exact natToChars_ne_nil v (congrArg String.data h)

theorem setIntField_roundtrip (cfg : BotConfig) (v : Int) (put : BotConfig → Int → BotConfig)
    (h1 : -(2 ^ 63) ≤ v) (h2 : v < 2 ^ 63) :
    setIntField cfg (intToString v) put = (intToString v, true, put cfg v) := by
  unfold setIntField
  rw [goParseInt_intToString v h1 h2]

theorem setFloatField_roundtrip (cfg : BotConfig) (v : DecFloat)
    (put : BotConfig → DecFloat → BotConfig) :
    setFloatField cfg (fmtDecFloat v) put = (fmtDecFloat v, true, put cfg v) := by
  unfold setFloatField
  rw [goParseFloat_fmtDecFloat]

/-- The Set/List-kind options (the `map[...]bool` case list of SetConfig), as
lowered `category.option` paths. -/
def listSetPaths : List String :=
  ["basic.freechannels", "modules.disabled", "modules.commanddisabled", "users.roles",
   "bucket.items", "bored.commands", "status.lines"]

/-- The element kind of each Set/List option. -/
def listSetKindOf (p : String) : FieldKind :=
  if p = "basic.freechannels" then .channel
  else if p = "modules.disabled" then .moduleId
  else if p = "modules.commanddisabled" then .commandId
  else if p = "users.roles" then .role
  else .str

/-- Read the collection of a Set/List option. -/
def listSetFieldOf (cfg : BotConfig) (p : String) : GoMap String Bool :=
  if p = "basic.freechannels" then cfg.Basic.FreeChannels
  else if p = "modules.disabled" then cfg.Modules.Disabled
  else if p = "modules.commanddisabled" then cfg.Modules.CommandDisabled
  else if p = "users.roles" then cfg.Users.Roles
  else if p = "bucket.items" then cfg.Bucket.Items
  else if p = "bored.commands" then cfg.Bored.Commands
  else cfg.Status.Lines

/-- Write the collection of a Set/List option. -/
def putListSet (cfg : BotConfig) (p : String) (m : GoMap String Bool) : BotConfig :=
  if p = "basic.freechannels" then { cfg with Basic.FreeChannels := m }
  else if p = "modules.disabled" then { cfg with Modules.Disabled := m }
  else if p = "modules.commanddisabled" then { cfg with Modules.CommandDisabled := m }
  else if p = "users.roles" then { cfg with Users.Roles := m }
  else if p = "bucket.items" then { cfg with Bucket.Items := m }
  else if p = "bored.commands" then { cfg with Bored.Commands := m }
  else { cfg with Status.Lines := m }

/-! ## C9: the Spam.MaxPressure concrete scenario -/

/-- C9: Setting `Spam.MaxPressure` to `"75"` succeeds and a subsequent Get of
`Spam.MaxPressure` returns `"75"`; setting it to `"notanumber"` fails with the
parse error and leaves the stored value unchanged at its default 60. -/
theorem spam_maxpressure_scenario (info : GuildInfo) (st : GuildState) :
    DefaultConfig.Spam.MaxPressure = ⟨60, 0⟩ ∧
    getConfigPath DefaultConfig st "spam" "maxpressure" = ["60"] ∧
    SetConfig DefaultConfig info "spam.maxpressure" "75" [] =
      ("75", true, { DefaultConfig with Spam.MaxPressure := ⟨75, 0⟩ }) ∧
    getConfigPath { DefaultConfig with Spam.MaxPressure := ⟨75, 0⟩ } st "spam" "maxpressure" =
      ["75"] ∧
    SetConfig DefaultConfig info "spam.maxpressure" "notanumber" [] =
      ("Error: strconv.ParseFloat: parsing \"notanumber\": invalid syntax", false,
        DefaultConfig) :=
  ⟨rfl, rfl, rfl, rfl, rfl⟩

/-! ## C7: clearing a Set/List option -/

/-- C7: For every option of List or Set kind, SetConfig with an empty first
value and no extra values succeeds with reply `"[]"`, replaces the collection
with an empty non-nil map, and a subsequent Get of that option reports
"[empty]". -/
theorem setConfig_list_clear (p : String) (hp : p ∈ listSetPaths) (cfg : BotConfig)
    (info : GuildInfo) (st : GuildState) :
    SetConfig cfg info p "" [] = ("[]", true, putListSet cfg p GoMap.empty) ∧
    listSetFieldOf (putListSet cfg p GoMap.empty) p = ⟨false, []⟩ ∧
    processGetConfig [p] (putListSet cfg p GoMap.empty) info st =
      "```\n" ++ p ++ ": [empty]```" := by
  simp only [listSetPaths, List.mem_cons, List.mem_singleton] at hp
  rcases hp with rfl | rfl | rfl | rfl | rfl | rfl | rfl | h
  · exact ⟨rfl, rfl, rfl⟩
  · exact ⟨rfl, rfl, rfl⟩
  · exact ⟨rfl, rfl, rfl⟩
  · exact ⟨rfl, rfl, rfl⟩
  · exact ⟨rfl, rfl, rfl⟩
  · exact ⟨rfl, rfl, rfl⟩
  · exact ⟨rfl, rfl, rfl⟩
  · cases h

/-- C7 witness: clearing `Bucket.Items` on the default configuration. -/
theorem setConfig_list_clear_witness :
    SetConfig DefaultConfig cInfo "bucket.items" "" [] =
      ("[]", true, putListSet DefaultConfig "bucket.items" GoMap.empty) ∧
    listSetFieldOf (putListSet DefaultConfig "bucket.items" GoMap.empty) "bucket.items" =
      ⟨false, []⟩ ∧
    processGetConfig ["bucket.items"] (putListSet DefaultConfig "bucket.items" GoMap.empty)
      cInfo cSt = "```\nbucket.items: [empty]```" :=
  setConfig_list_clear "bucket.items" (by decide) DefaultConfig cInfo cSt

/-! ## C5 and C6: bare-option path resolution -/

/-- C5: For a raw path whose first segment matches no top-level field name,
exactly one category containing an option of that name qualifies the path with
that category, and two or more matches produce the ambiguity error listing
every `Category.option` candidate. -/
theorem fixRequest_bare_option (arg : String)
    (htop : ∀ f ∈ botTopFields, lowerStr f ≠ (splitN3 (lowerStr arg)).headD "") :
    (∀ c, bareMatches ((splitN3 (lowerStr arg)).headD "") = [c] →
      FixRequest arg = .ok (lowerStr c ++ "." ++ arg)) ∧
    (2 ≤ (bareMatches ((splitN3 (lowerStr arg)).headD "")).length →
      FixRequest arg = .error ("```\nCould be any of the following:\n" ++
        joinWith "\n" ((bareMatches ((splitN3 (lowerStr arg)).headD "")).map
          fun c => c ++ "." ++ (splitN3 (lowerStr arg)).headD "") ++ "```")) := by
  have hany :
      (botTopFields.any fun f => lowerStr f == (splitN3 (lowerStr arg)).headD "") = false := by
    rw [List.any_eq_false]
    intro f hf
    simpa using htop f hf
  constructor
  · intro c hc
    unfold FixRequest
    simp only [hany, Bool.false_eq_true, if_false, hc]
    rfl
  · intro hlen
    unfold FixRequest
    simp only [hany, Bool.false_eq_true, if_false]
    rw [if_neg (by omega), if_neg (by omega)]

/-- C6 counterexample: a first segment that matches no category and appears as
an option in no category is returned unchanged with no error — not a NotFound
error as the claim states. -/
theorem fixRequest_zero_matches_cex :
    (∀ f ∈ botTopFields, lowerStr f ≠ "notanoption") ∧
    bareMatches "notanoption" = [] ∧
    FixRequest "notanoption" = .ok "notanoption" :=
  ⟨by decide, rfl, rfl⟩

/-- C6 amended: with zero matches `FixRequest` returns the raw path unchanged
and no error; the unknown name is only reported downstream, e.g. by SetConfig's
"could not find configuration parameter" reply. -/
theorem fixRequest_zero_matches (arg : String)
    (htop : ∀ f ∈ botTopFields, lowerStr f ≠ (splitN3 (lowerStr arg)).headD "")
    (hzero : bareMatches ((splitN3 (lowerStr arg)).headD "") = []) :
    FixRequest arg = .ok arg ∧
    ∀ cfg info value extra, SetConfig cfg info arg value extra =
      ("Could not find configuration parameter " ++ arg ++ "!", false, cfg) := by
  have hne : ∀ s, s ∈ botTopFields → (splitN3 (lowerStr arg)).headD "" ≠ lowerStr s :=
    fun s hs h => htop s hs h.symm
  have hany :
      (botTopFields.any fun f => lowerStr f == (splitN3 (lowerStr arg)).headD "") = false := by
    rw [List.any_eq_false]
    intro f hf
    simpa using htop f hf
  constructor
  · unfold FixRequest
    simp only [hany, Bool.false_eq_true, if_false, hzero]
    rfl
  · intro cfg info value extra
    have hb : ∀ s low, s ∈ botTopFields → lowerStr s = low →
        (splitN3 (lowerStr arg)).headD "" ≠ low := by
      intro s low hs hl h
      exact hne s hs (by rw [hl, h])
    unfold SetConfig
    rw [if_neg (by
      rintro (h | h | h)
      · exact hb "Version" "version" (by decide) rfl h
      · exact hb "LastVersion" "lastversion" (by decide) rfl h
      · exact hb "SetupDone" "setupdone" (by decide) rfl h)]
    rw [if_neg (hb "Basic" "basic" (by decide) rfl),
      if_neg (hb "Modules" "modules" (by decide) rfl),
      if_neg (hb "Spam" "spam" (by decide) rfl),
      if_neg (hb "Users" "users" (by decide) rfl),
      if_neg (hb "Bucket" "bucket" (by decide) rfl),
      if_neg (hb "Markov" "markov" (by decide) rfl),
      if_neg (hb "Filter" "filter" (by decide) rfl),
      if_neg (hb "Bored" "bored" (by decide) rfl),
      if_neg (hb "Information" "information" (by decide) rfl),
      if_neg (hb "Log" "log" (by decide) rfl),
      if_neg (hb "Witty" "witty" (by decide) rfl),
      if_neg (hb "Scheduler" "scheduler" (by decide) rfl),
      if_neg (hb "Miscellaneous" "miscellaneous" (by decide) rfl),
      if_neg (hb "Status" "status" (by decide) rfl),
      if_neg (hb "Quote" "quote" (by decide) rfl)]

/-- C5 witness: "maxpressure" is uniquely in Spam; "cooldown" is ambiguous
between Bored, Log, Witty and Status. -/
theorem fixRequest_bare_option_witness :
    FixRequest "maxpressure" = .ok "spam.maxpressure" ∧
    FixRequest "cooldown" =
      .error "```\nCould be any of the following:\nBored.cooldown\nLog.cooldown\nWitty.cooldown\nStatus.cooldown```" :=
  ⟨(fixRequest_bare_option "maxpressure" (by decide)).1 "Spam" (by decide),
   (fixRequest_bare_option "cooldown" (by decide)).2 (by decide)⟩

/-- C6 witness: a name that exists nowhere resolves to itself and SetConfig
then reports the not-found message. -/
theorem fixRequest_zero_matches_witness :
    FixRequest "notanoption" = .ok "notanoption" ∧
    SetConfig DefaultConfig cInfo "notanoption" "5" [] =
      ("Could not find configuration parameter notanoption!", false, DefaultConfig) :=
  ⟨(fixRequest_zero_matches "notanoption" (by decide) (by decide)).1,
   (fixRequest_zero_matches "notanoption" (by decide) (by decide)).2 DefaultConfig cInfo "5" []⟩

/-! ## C8: Map-kind delete then keyed Get -/

/-- C8 failing input: `Modules.CommandLimits` is a Map-kind option
(`map[CommandID]int64`).  Setting key `"ping"` with an empty value does delete
the key, but the subsequent keyed Get answers "is not a map." instead of
"can't find ping": `GetSubStruct`'s switch names the dead type
`map[string]int64` and not `map[CommandID]int64`.  (For string-, channel- and
int-keyed maps, e.g. `Basic.Aliases`, the same sequence does report
"can't find {key}".) -/
theorem commandlimits_keyed_get_bug :
    SetConfig { DefaultConfig with Modules.CommandLimits := ⟨false, [("ping", .i 5)]⟩ }
        cInfo "modules.commandlimits" "ping" [""] =
      ("Deleted ", false, { DefaultConfig with Modules.CommandLimits := ⟨false, []⟩ }) ∧
    GetSubStruct { DefaultConfig with Modules.CommandLimits := ⟨false, []⟩ } cSt
      "modules" "commandlimits" (some "ping") = ["is not a map."] ∧
    GetSubStruct { DefaultConfig with Modules.CommandLimits := ⟨false, []⟩ } cSt
      "modules" "commandlimits" (some "ping") ≠ ["can't find ping"] ∧
    SetConfig { DefaultConfig with Basic.Aliases := ⟨false, [("kawaii", .s "pick cute")]⟩ }
        cInfo "basic.aliases" "kawaii" [""] =
      ("Deleted ", false, { DefaultConfig with Basic.Aliases := ⟨false, []⟩ }) ∧
    GetSubStruct { DefaultConfig with Basic.Aliases := ⟨false, []⟩ } cSt
      "basic" "aliases" (some "kawaii") = ["can't find kawaii"] :=
  ⟨rfl, rfl, by decide, rfl, rfl⟩

/-! ## C10: Map/MapList deletion is reported as a failure -/

/-- The Map-kind options of SetConfig's key/value case list, with key kinds. -/
def mapPaths : List String :=
  ["basic.aliases", "modules.commandlimits", "spam.maxchannelpressure", "information.rules",
   "filter.responses", "filter.templates", "witty.responses"]

def mapKeyKindOf (p : String) : FieldKind :=
  if p = "modules.commandlimits" then .commandId
  else if p = "spam.maxchannelpressure" then .channel
  else if p = "information.rules" then .int
  else .str

def mapFieldOf (cfg : BotConfig) (p : String) : GoMap String Scalar :=
  if p = "basic.aliases" then cfg.Basic.Aliases
  else if p = "modules.commandlimits" then cfg.Modules.CommandLimits
  else if p = "spam.maxchannelpressure" then cfg.Spam.MaxChannelPressure
  else if p = "information.rules" then cfg.Information.Rules
  else if p = "filter.responses" then cfg.Filter.Responses
  else if p = "filter.templates" then cfg.Filter.Templates
  else cfg.Witty.Responses

def putMapField (cfg : BotConfig) (p : String) (m : GoMap String Scalar) : BotConfig :=
  if p = "basic.aliases" then { cfg with Basic.Aliases := m }
  else if p = "modules.commandlimits" then { cfg with Modules.CommandLimits := m }
  else if p = "spam.maxchannelpressure" then { cfg with Spam.MaxChannelPressure := m }
  else if p = "information.rules" then { cfg with Information.Rules := m }
  else if p = "filter.responses" then { cfg with Filter.Responses := m }
  else if p = "filter.templates" then { cfg with Filter.Templates := m }
  else { cfg with Witty.Responses := m }

/-- The MapList-kind options whose inner collections are sets. -/
def mapListPaths : List String :=
  ["modules.channels", "modules.commandroles", "modules.commandchannels", "filter.filters",
   "filter.channels"]

def mapListKeyKindOf (p : String) : FieldKind :=
  if p = "modules.channels" then .moduleId
  else if p = "modules.commandroles" then .commandId
  else if p = "modules.commandchannels" then .commandId
  else .str

def mapListFieldOf (cfg : BotConfig) (p : String) : GoMap String (GoMap String Bool) :=
  if p = "modules.channels" then cfg.Modules.Channels
  else if p = "modules.commandroles" then cfg.Modules.CommandRoles
  else if p = "modules.commandchannels" then cfg.Modules.CommandChannels
  else if p = "filter.filters" then cfg.Filter.Filters
  else cfg.Filter.Channels

def putMapListField (cfg : BotConfig) (p : String) (m : GoMap String (GoMap String Bool)) :
    BotConfig :=
  if p = "modules.channels" then { cfg with Modules.Channels := m }
  else if p = "modules.commandroles" then { cfg with Modules.CommandRoles := m }
  else if p = "modules.commandchannels" then { cfg with Modules.CommandChannels := m }
  else if p = "filter.filters" then { cfg with Filter.Filters := m }
  else { cfg with Filter.Channels := m }

/-- Go's nil-map guard (`if f.IsNil() { f.Set(reflect.MakeMap(...)) }`). -/
def guardNil {K V : Type} (m : GoMap K V) : GoMap K V :=
  if m.isNil then GoMap.empty else m

/-- `setConfigKeyValue` with an empty value text: parse the key, allocate the
map if nil, delete, and report `"Deleted "` plus the empty value with success
`false` (BotConfig.go:384-387). -/
theorem setConfigKeyValue_delete (kk vk : FieldKind) (k' : String) (info : GuildInfo)
    (f : GoMap String Scalar) (ks : Scalar)
    (hk : setConfigValue kk k' info = .ok ks) :
    setConfigKeyValue kk vk k' [""] info f =
      ("Deleted ", false, (guardNil f).del (fmtScalar ks)) := by
  unfold setConfigKeyValue
  rw [hk]
  rfl

/-- `setConfigMapList` with no values: parse the key and delete it via
`deleteFromMapReflect`, reporting success `false` (BotConfig.go:443-444). -/
theorem setConfigMapListSet_delete (kk ek : FieldKind) (k' : String) (info : GuildInfo)
    (f : GoMap String (GoMap String Bool)) (ks : Scalar)
    (hne : k' ≠ "") (hk : setConfigValue kk k' info = .ok ks) :
    setConfigMapListSet kk ek k' [] info f =
      (info.deleteMsg (fmtScalar ks), false, (guardNil f).del (fmtScalar ks)) := by
  unfold setConfigMapListSet
  rw [if_neg hne, hk]
  rfl

theorem setConfigMapListSlice_delete (kk : FieldKind) (k' : String) (info : GuildInfo)
    (f : GoMap String (List String)) (ks : Scalar)
    (hne : k' ≠ "") (hk : setConfigValue kk k' info = .ok ks) :
    setConfigMapListSlice kk k' [] info f =
      (info.deleteMsg (fmtScalar ks), false, (guardNil f).del (fmtScalar ks)) := by
  unfold setConfigMapListSlice
  rw [if_neg hne, hk]
  rfl

theorem setKeyValueField_delete (cfg : BotConfig) (info : GuildInfo) (kk vk : FieldKind)
    (k : String) (get : BotConfig → GoMap String Scalar)
    (put : BotConfig → GoMap String Scalar → BotConfig) (ks : Scalar)
    (hk : setConfigValue kk (lowerStr k) info = .ok ks) :
    setKeyValueField cfg info kk vk k [""] get put =
      ("Deleted ", false, put cfg ((guardNil (get cfg)).del (fmtScalar ks))) := by
  unfold setKeyValueField
  rw [setConfigKeyValue_delete _ _ _ _ _ _ hk]

theorem setMapListField_delete (cfg : BotConfig) (info : GuildInfo) (kk ek : FieldKind)
    (k : String) (get : BotConfig → GoMap String (GoMap String Bool))
    (put : BotConfig → GoMap String (GoMap String Bool) → BotConfig) (ks : Scalar)
    (hne : lowerStr k ≠ "") (hk : setConfigValue kk (lowerStr k) info = .ok ks) :
    setMapListField cfg info kk ek k [] get put =
      (info.deleteMsg (fmtScalar ks), false, put cfg ((guardNil (get cfg)).del (fmtScalar ks))) := by
  unfold setMapListField
  rw [setConfigMapListSet_delete _ _ _ _ _ _ hne hk]

theorem setMapListSliceField_delete (cfg : BotConfig) (info : GuildInfo) (kk : FieldKind)
    (k : String) (get : BotConfig → GoMap String (List String))
    (put : BotConfig → GoMap String (List String) → BotConfig) (ks : Scalar)
    (hne : lowerStr k ≠ "") (hk : setConfigValue kk (lowerStr k) info = .ok ks) :
    setMapListSliceField cfg info kk k [] get put =
      (info.deleteMsg (fmtScalar ks), false, put cfg ((guardNil (get cfg)).del (fmtScalar ks))) := by
  unfold setMapListSliceField
  rw [setConfigMapListSlice_delete _ _ _ _ _ hne hk]

/-- C10: Deleting a Map entry (key plus empty value) or a MapList entry (key
and no values) mutates the store but returns success `false`: the Map reply is
`"Deleted "` followed by the empty value text — not the deleted key — and the
command handler therefore reports the deletion in its failure format instead of
the "Successfully set" echo. -/
theorem map_delete_reports_failure (p q : String) (hp : p ∈ mapPaths)
    (hq : q ∈ mapListPaths) (cfg : BotConfig) (info : GuildInfo)
    (k k2 k3 : String) (ks ks2 ks3 : Scalar)
    (hk : setConfigValue (mapKeyKindOf p) (lowerStr k) info = .ok ks)
    (hk2 : setConfigValue (mapListKeyKindOf q) (lowerStr k2) info = .ok ks2)
    (hk2ne : lowerStr k2 ≠ "")
    (hk3 : setConfigValue .user (lowerStr k3) info = .ok ks3)
    (hk3ne : lowerStr k3 ≠ "") :
    SetConfig cfg info p k [""] =
      ("Deleted ", false, putMapField cfg p ((guardNil (mapFieldOf cfg p)).del (fmtScalar ks))) ∧
    SetConfig cfg info q k2 [] =
      (info.deleteMsg (fmtScalar ks2), false,
        putMapListField cfg q ((guardNil (mapListFieldOf cfg q)).del (fmtScalar ks2))) ∧
    SetConfig cfg info "quote.quotes" k3 [] =
      (info.deleteMsg (fmtScalar ks3), false,
        { cfg with Quote.Quotes := (guardNil cfg.Quote.Quotes).del (fmtScalar ks3) }) ∧
    processSetConfig [p, k, ""] cfg info =
      ("```\nDeleted ```",
        putMapField cfg p ((guardNil (mapFieldOf cfg p)).del (fmtScalar ks)), true) ∧
    processSetConfig [q, k2] cfg info =
      ("```\n" ++ info.deleteMsg (fmtScalar ks2) ++ "```",
        putMapListField cfg q ((guardNil (mapListFieldOf cfg q)).del (fmtScalar ks2)), true) := by
  simp only [mapPaths, mapListPaths, List.mem_cons, List.mem_singleton] at hp hq
  have h1 : SetConfig cfg info p k [""] =
      ("Deleted ", false,
        putMapField cfg p ((guardNil (mapFieldOf cfg p)).del (fmtScalar ks))) := by
    rcases hp with rfl | rfl | rfl | rfl | rfl | rfl | rfl | h
    · exact setKeyValueField_delete cfg info .str .str k (fun c => c.Basic.Aliases)
        (fun c v => { c with Basic.Aliases := v }) ks hk
    · exact setKeyValueField_delete cfg info .commandId .int k (fun c => c.Modules.CommandLimits)
        (fun c v => { c with Modules.CommandLimits := v }) ks hk
    · exact setKeyValueField_delete cfg info .channel .float k
        (fun c => c.Spam.MaxChannelPressure)
        (fun c v => { c with Spam.MaxChannelPressure := v }) ks hk
    · exact setKeyValueField_delete cfg info .int .str k (fun c => c.Information.Rules)
        (fun c v => { c with Information.Rules := v }) ks hk
    · exact setKeyValueField_delete cfg info .str .str k (fun c => c.Filter.Responses)
        (fun c v => { c with Filter.Responses := v }) ks hk
    · exact setKeyValueField_delete cfg info .str .str k (fun c => c.Filter.Templates)
        (fun c v => { c with Filter.Templates := v }) ks hk
    · exact setKeyValueField_delete cfg info .str .str k (fun c => c.Witty.Responses)
        (fun c v => { c with Witty.Responses := v }) ks hk
    · cases h
  have h2 : SetConfig cfg info q k2 [] =
      (info.deleteMsg (fmtScalar ks2), false,
        putMapListField cfg q ((guardNil (mapListFieldOf cfg q)).del (fmtScalar ks2))) := by
    rcases hq with rfl | rfl | rfl | rfl | rfl | h
    · exact setMapListField_delete cfg info .moduleId .channel k2 (fun c => c.Modules.Channels)
        (fun c v => { c with Modules.Channels := v }) ks2 hk2ne hk2
    · exact setMapListField_delete cfg info .commandId .role k2 (fun c => c.Modules.CommandRoles)
        (fun c v => { c with Modules.CommandRoles := v }) ks2 hk2ne hk2
    · exact setMapListField_delete cfg info .commandId .channel k2
        (fun c => c.Modules.CommandChannels)
        (fun c v => { c with Modules.CommandChannels := v }) ks2 hk2ne hk2
    · exact setMapListField_delete cfg info .str .str k2 (fun c => c.Filter.Filters)
        (fun c v => { c with Filter.Filters := v }) ks2 hk2ne hk2
    · exact setMapListField_delete cfg info .str .channel k2 (fun c => c.Filter.Channels)
        (fun c v => { c with Filter.Channels := v }) ks2 hk2ne hk2
    · cases h
  have h3 : SetConfig cfg info "quote.quotes" k3 [] =
      (info.deleteMsg (fmtScalar ks3), false,
        { cfg with Quote.Quotes := (guardNil cfg.Quote.Quotes).del (fmtScalar ks3) }) :=
    setMapListSliceField_delete cfg info .user k3 (fun c => c.Quote.Quotes)
      (fun c v => { c with Quote.Quotes := v }) ks3 hk3ne hk3
  have hfixp : FixRequest p = .ok p := by
    rcases hp with rfl | rfl | rfl | rfl | rfl | rfl | rfl | h
    · rfl
    · rfl
    · rfl
    · rfl
    · rfl
    · rfl
    · rfl
    · cases h
  have hfixq : FixRequest q = .ok q := by
    rcases hq with rfl | rfl | rfl | rfl | rfl | h
    · rfl
    · rfl
    · rfl
    · rfl
    · rfl
    · cases h
  refine ⟨h1, h2, h3, ?_, ?_⟩
  · simp only [processSetConfig, hfixp, h1]
    rfl
  · simp only [processSetConfig, hfixq, h2]
    rfl

/-- C10 witness: deleting the alias `kawaii` and the command-role entry for
`ping` on concrete stores. -/
theorem map_delete_reports_failure_witness :
    SetConfig { DefaultConfig with Basic.Aliases := ⟨false, [("kawaii", .s "pick cute")]⟩ }
        cInfo "basic.aliases" "kawaii" [""] =
      ("Deleted ", false,
        putMapField { DefaultConfig with Basic.Aliases := ⟨false, [("kawaii", .s "pick cute")]⟩ }
          "basic.aliases"
          ((guardNil (mapFieldOf
            { DefaultConfig with Basic.Aliases := ⟨false, [("kawaii", .s "pick cute")]⟩ }
            "basic.aliases")).del (fmtScalar (.s "kawaii")))) ∧
    processSetConfig ["modules.commandroles", "ping"]
        { DefaultConfig with Basic.Aliases := ⟨false, [("kawaii", .s "pick cute")]⟩ } cInfo =
      ("```\n" ++ cInfo.deleteMsg (fmtScalar (.s "ping")) ++ "```",
        putMapListField
          { DefaultConfig with Basic.Aliases := ⟨false, [("kawaii", .s "pick cute")]⟩ }
          "modules.commandroles"
          ((guardNil (mapListFieldOf
            { DefaultConfig with Basic.Aliases := ⟨false, [("kawaii", .s "pick cute")]⟩ }
            "modules.commandroles")).del (fmtScalar (.s "ping"))), true) := by
  have h := map_delete_reports_failure "basic.aliases" "modules.commandroles" (by decide)
    (by decide) { DefaultConfig with Basic.Aliases := ⟨false, [("kawaii", .s "pick cute")]⟩ }
    cInfo "kawaii" "ping" "u1" (.s "kawaii") (.s "ping") (.s "u1") rfl rfl (by decide) rfl
    (by decide)
  exact ⟨h.1, h.2.2.2.2⟩

/-! ## C1: a mid-list parse failure leaves a partially rebuilt collection -/

/-- C1 counterexample: on `Modules.CommandDisabled` holding `{"a"}`, setting
`("ping", "notacmd")` (second value unparseable) returns the parse error with
success `false`, yet the stored collection is no longer `{"a"}` — it has been
cleared and holds the parsed prefix `{"ping"}`. -/
theorem setConfigList_partial_mutation_cex :
    SetConfig { DefaultConfig with Modules.CommandDisabled := ⟨false, [("a", true)]⟩ }
        cInfo "modules.commanddisabled" "ping" ["notacmd"] =
      ("Value error: notacmd is not a command name!", false,
        { DefaultConfig with Modules.CommandDisabled := ⟨false, [("ping", true)]⟩ }) ∧
    (⟨false, [("ping", true)]⟩ : GoMap String Bool) ≠ ⟨false, [("a", true)]⟩ :=
  ⟨rfl, by decide⟩

/-- The collection built by inserting the successfully parsed prefix into a
fresh map. -/
def buildPrefix (kind : FieldKind) (info : GuildInfo) (pre : List String) :
    GoMap String Bool :=
  pre.foldl (fun acc x =>
    match setConfigValue kind x info with
    | .ok s => acc.set (fmtScalar s) true
    | .error _ => acc) GoMap.empty

theorem setConfigListMapGo_partial (kind : FieldKind) (info : GuildInfo) (v err : String)
    (post : List String) :
    ∀ (pre : List String) (m : GoMap String Bool) (stripped : List String),
    (∀ x ∈ pre, ∃ s, setConfigValue kind x info = .ok s) →
    setConfigValue kind v info = .error err →
    setConfigListMapGo kind info (pre ++ v :: post) m stripped =
      ("Value error: " ++ err, false,
        pre.foldl (fun acc x =>
          match setConfigValue kind x info with
          | .ok s => acc.set (fmtScalar s) true
          | .error _ => acc) m) := by
  intro pre
  induction pre with
  | nil =>
    intro m stripped _ herr
    simp only [List.nil_append, setConfigListMapGo, herr, List.foldl_nil]
  | cons x xs ih =>
    intro m stripped hpre herr
    obtain ⟨s, hs⟩ := hpre x (by simp)
    simp only [List.cons_append, setConfigListMapGo, hs, List.foldl_cons]
    exact ih _ _ (fun y hy => hpre y (by simp [hy])) herr

theorem setListField_of (cfg : BotConfig) (info : GuildInfo) (kind : FieldKind)
    (value : String) (extra : List String) (put : BotConfig → GoMap String Bool → BotConfig)
    (msg : String) (ok : Bool) (m : GoMap String Bool)
    (h : setConfigListMap kind (value :: extra) info = (msg, ok, m)) :
    setListField cfg info kind value extra put = (msg, ok, put cfg m) := by
  unfold setListField
  rw [h]

/-- C1 amended: for every List/Set option, the collection is cleared in place
before the values are parsed; if parsing any value fails, SetConfig reports the
error with success `false` and the stored collection is left holding exactly the
successfully parsed prefix (independent of its prior contents), rather than
being left unchanged.  The whole new value is installed only when every element
parses. -/
theorem setConfigList_partial_mutation (p : String) (hp : p ∈ listSetPaths)
    (cfg : BotConfig) (info : GuildInfo) (value : String) (extra : List String)
    (pre : List String) (v err : String) (post : List String)
    (hsplit : value :: extra = pre ++ v :: post)
    (hpre : ∀ x ∈ pre, ∃ s, setConfigValue (listSetKindOf p) x info = .ok s)
    (herr : setConfigValue (listSetKindOf p) v info = .error err)
    (hne : value ≠ "") :
    SetConfig cfg info p value extra =
      ("Value error: " ++ err, false,
        putListSet cfg p (buildPrefix (listSetKindOf p) info pre)) := by
  have hm : setConfigListMap (listSetKindOf p) (value :: extra) info =
      ("Value error: " ++ err, false, buildPrefix (listSetKindOf p) info pre) := by
    have hred : setConfigListMap (listSetKindOf p) (value :: extra) info =
        if value = "" then ("[]", true, GoMap.empty)
        else setConfigListMapGo (listSetKindOf p) info (value :: extra) GoMap.empty [] := rfl
    rw [hred, if_neg hne, hsplit]
    exact setConfigListMapGo_partial _ _ _ _ _ _ _ _ hpre herr
  simp only [listSetPaths, List.mem_cons, List.mem_singleton] at hp
  rcases hp with rfl | rfl | rfl | rfl | rfl | rfl | rfl | h
  · exact setListField_of cfg info .channel value extra
      (fun c v => { c with Basic.FreeChannels := v }) _ _ _ hm
  · exact setListField_of cfg info .moduleId value extra
      (fun c v => { c with Modules.Disabled := v }) _ _ _ hm
  · exact setListField_of cfg info .commandId value extra
      (fun c v => { c with Modules.CommandDisabled := v }) _ _ _ hm
  · exact setListField_of cfg info .role value extra
      (fun c v => { c with Users.Roles := v }) _ _ _ hm
  · exact setListField_of cfg info .str value extra
      (fun c v => { c with Bucket.Items := v }) _ _ _ hm
  · exact setListField_of cfg info .str value extra
      (fun c v => { c with Bored.Commands := v }) _ _ _ hm
  · exact setListField_of cfg info .str value extra
      (fun c v => { c with Status.Lines := v }) _ _ _ hm
  · cases h

/-- C1 witness: the counterexample instance, obtained through the amended
theorem. -/
theorem setConfigList_partial_mutation_witness :
    SetConfig { DefaultConfig with Modules.CommandDisabled := ⟨false, [("a", true)]⟩ }
        cInfo "modules.commanddisabled" "ping" ["notacmd"] =
      ("Value error: " ++ "notacmd is not a command name!", false,
        putListSet { DefaultConfig with Modules.CommandDisabled := ⟨false, [("a", true)]⟩ }
          "modules.commanddisabled"
          (buildPrefix (listSetKindOf "modules.commanddisabled") cInfo ["ping"])) :=
  setConfigList_partial_mutation "modules.commanddisabled" (by decide)
    { DefaultConfig with Modules.CommandDisabled := ⟨false, [("a", true)]⟩ } cInfo
    "ping" ["notacmd"] ["ping"] "notacmd" "notacmd is not a command name!" [] rfl
    (by
      intro x hx
      simp only [List.mem_singleton] at hx
      subst hx
      exact ⟨.s "ping", rfl⟩)
    rfl (by decide)

/-! ## C4: Get/Set/Get round trip on scalar non-Reference options -/

/-- The scalar, non-Reference `Category.Option` paths (lowered): plain strings,
booleans, integers and floats.  Reference kinds (role/channel/user) are excluded
by the claim; collection kinds return one line per element rather than a single
text, so "the exact text Get returned" denotes a scalar read. -/
def scalarPairs : List (String × String) :=
  [("basic", "commandprefix"), ("users", "timezonelocation"), ("users", "welcomemessage"),
   ("users", "silencemessage"),
   ("basic", "ignoreinvalidcommands"), ("basic", "importable"), ("basic", "listentobots"),
   ("users", "trackuserleft"), ("markov", "usemembernames"),
   ("information", "hidenegativerules"),
   ("modules", "commandperduration"), ("modules", "commandmaxduration"),
   ("spam", "maxremovelookback"), ("spam", "raidtime"), ("spam", "raidsize"),
   ("spam", "autosilence"), ("spam", "lockdownduration"), ("bucket", "maxitems"),
   ("bucket", "maxitemlength"), ("bucket", "maxfighthp"), ("bucket", "maxfightdamage"),
   ("markov", "maxpmlines"), ("markov", "maxlines"), ("markov", "defaultlines"),
   ("bored", "cooldown"), ("log", "cooldown"), ("witty", "cooldown"),
   ("miscellaneous", "maxsearchresults"), ("status", "cooldown"),
   ("spam", "imagepressure"), ("spam", "pingpressure"), ("spam", "lengthpressure"),
   ("spam", "repeatpressure"), ("spam", "linepressure"), ("spam", "basepressure"),
   ("spam", "pressuredecay"), ("spam", "maxpressure")]

/-- The int64 range `strconv.ParseInt` enforces (a Go int config value always
satisfies it). -/
def inRange64 (v : Int) : Prop := -(2 ^ 63) ≤ v ∧ v < 2 ^ 63

instance (v : Int) : Decidable (inRange64 v) := by
  unfold inRange64
  infer_instance

/-- All integer-typed option fields are within the int64 range (automatic for a
store decoded from Go values). -/
def intFieldsInRange (cfg : BotConfig) : Prop :=
  inRange64 cfg.Modules.CommandPerDuration ∧ inRange64 cfg.Modules.CommandMaxDuration ∧
  inRange64 cfg.Spam.MaxRemoveLookback ∧ inRange64 cfg.Spam.RaidTime ∧
  inRange64 cfg.Spam.RaidSize ∧ inRange64 cfg.Spam.AutoSilence ∧
  inRange64 cfg.Spam.LockdownDuration ∧ inRange64 cfg.Bucket.MaxItems ∧
  inRange64 cfg.Bucket.MaxItemLength ∧ inRange64 cfg.Bucket.MaxFightHP ∧
  inRange64 cfg.Bucket.MaxFightDamage ∧ inRange64 cfg.Markov.MaxPMlines ∧
  inRange64 cfg.Markov.MaxLines ∧ inRange64 cfg.Markov.DefaultLines ∧
  inRange64 cfg.Bored.Cooldown ∧ inRange64 cfg.Log.Cooldown ∧
  inRange64 cfg.Witty.Cooldown ∧ inRange64 cfg.Miscellaneous.MaxSearchResults ∧
  inRange64 cfg.Status.Cooldown

instance (cfg : BotConfig) : Decidable (intFieldsInRange cfg) := by
  unfold intFieldsInRange
  infer_instance

/-- A two-entry `Basic.Aliases` store, for the collection-path counterexample. -/
def c4cfg : BotConfig :=
  { zeroConfig with
    Basic.Aliases := ⟨false, [("cute", .s "pick cute"), ("hug", .s "give hug")]⟩ }

/-- C4 counterexample: the Get/Set/Get round trip fails on a collection path.
Get of the two-entry Map option `basic.aliases` renders the quoted lines
`"cute": pick cute` and `"hug": give hug`; feeding those exact lines back to
Set makes `setConfigKeyValue` take the first line as the key and the second as
its value, succeeding while installing a bogus third entry, so the second Get
returns three lines and differs from the first. -/
theorem get_set_get_roundtrip_cex :
    getConfigPath c4cfg cSt "basic" "aliases" =
      ["\"cute\": pick cute", "\"hug\": give hug"] ∧
    (SetConfig c4cfg cInfo "basic.aliases" "\"cute\": pick cute"
        ["\"hug\": give hug"]).2.1 = true ∧
    getConfigPath
        (SetConfig c4cfg cInfo "basic.aliases" "\"cute\": pick cute"
          ["\"hug\": give hug"]).2.2 cSt "basic" "aliases" =
      ["\"cute\": pick cute", "\"hug\": give hug",
       "\"\"cute\": pick cute\": \"hug\": give hug"] ∧
    getConfigPath
        (SetConfig c4cfg cInfo "basic.aliases" "\"cute\": pick cute"
          ["\"hug\": give hug"]).2.2 cSt "basic" "aliases" ≠
      getConfigPath c4cfg cSt "basic" "aliases" :=
  ⟨rfl, rfl, rfl, by decide⟩

/-- C4 amended: for every scalar non-Reference `Category.Option` path (the
string, bool, int64 and float32 options), Get, then Set with the exact text Get
returned, then Get again yields the same text as the first Get, with the Set
succeeding; on collection paths the rendered lines re-parse as keys or elements
when fed back to Set, so the round trip fails in general (see the
counterexample). -/
theorem get_set_get_roundtrip (p : String × String) (hp : p ∈ scalarPairs)
    (cfg : BotConfig) (info : GuildInfo) (st : GuildState)
    (hr : intFieldsInRange cfg) :
    ∃ t msg cfg',
      getConfigPath cfg st p.1 p.2 = [t] ∧
      SetConfig cfg info (p.1 ++ "." ++ p.2) t [] = (msg, true, cfg') ∧
      getConfigPath cfg' st p.1 p.2 = [t] := by
  obtain ⟨r1, r2, r3, r4, r5, r6, r7, r8, r9, r10, r11, r12, r13, r14, r15, r16, r17,
    r18, r19⟩ := hr
  simp only [scalarPairs] at hp
  fin_cases hp
  -- plain strings
  · exact ⟨_, _, _, rfl, rfl, rfl⟩
  · exact ⟨_, _, _, rfl, rfl, rfl⟩
  · exact ⟨_, _, _, rfl, rfl, rfl⟩
  · exact ⟨_, _, _, rfl, rfl, rfl⟩
  -- booleans
  · cases hb : cfg.Basic.IgnoreInvalidCommands
    · refine ⟨"false", _, _, ?_, rfl, rfl⟩
      show [fmtScalar (.b cfg.Basic.IgnoreInvalidCommands)] = ["false"]
      rw [hb]
      rfl
    · refine ⟨"true", _, _, ?_, rfl, rfl⟩
      show [fmtScalar (.b cfg.Basic.IgnoreInvalidCommands)] = ["true"]
      rw [hb]
      rfl
  · cases hb : cfg.Basic.Importable
    · refine ⟨"false", _, _, ?_, rfl, rfl⟩
      show [fmtScalar (.b cfg.Basic.Importable)] = ["false"]
      rw [hb]
      rfl
    · refine ⟨"true", _, _, ?_, rfl, rfl⟩
      show [fmtScalar (.b cfg.Basic.Importable)] = ["true"]
      rw [hb]
      rfl
  · cases hb : cfg.Basic.ListenToBots
    · refine ⟨"false", _, _, ?_, rfl, rfl⟩
      show [fmtScalar (.b cfg.Basic.ListenToBots)] = ["false"]
      rw [hb]
      rfl
    · refine ⟨"true", _, _, ?_, rfl, rfl⟩
      show [fmtScalar (.b cfg.Basic.ListenToBots)] = ["true"]
      rw [hb]
      rfl
  · cases hb : cfg.Users.TrackUserLeft
    · refine ⟨"false", _, _, ?_, rfl, rfl⟩
      show [fmtScalar (.b cfg.Users.TrackUserLeft)] = ["false"]
      rw [hb]
      rfl
    · refine ⟨"true", _, _, ?_, rfl, rfl⟩
      show [fmtScalar (.b cfg.Users.TrackUserLeft)] = ["true"]
      rw [hb]
      rfl
  · cases hb : cfg.Markov.UseMemberNames
    · refine ⟨"false", _, _, ?_, rfl, rfl⟩
      show [fmtScalar (.b cfg.Markov.UseMemberNames)] = ["false"]
      rw [hb]
      rfl
    · refine ⟨"true", _, _, ?_, rfl, rfl⟩
      show [fmtScalar (.b cfg.Markov.UseMemberNames)] = ["true"]
      rw [hb]
      rfl
  · cases hb : cfg.Information.HideNegativeRules
    · refine ⟨"false", _, _, ?_, rfl, rfl⟩
      show [fmtScalar (.b cfg.Information.HideNegativeRules)] = ["false"]
      rw [hb]
      rfl
    · refine ⟨"true", _, _, ?_, rfl, rfl⟩
      show [fmtScalar (.b cfg.Information.HideNegativeRules)] = ["true"]
      rw [hb]
      rfl
  -- integers
  · exact ⟨_, _, _, rfl, setIntField_roundtrip cfg _ (fun c v => { c with Modules.CommandPerDuration := v }) r1.1 r1.2, rfl⟩
  · exact ⟨_, _, _, rfl, setIntField_roundtrip cfg _ (fun c v => { c with Modules.CommandMaxDuration := v }) r2.1 r2.2, rfl⟩
  · exact ⟨_, _, _, rfl, setIntField_roundtrip cfg _ (fun c v => { c with Spam.MaxRemoveLookback := v }) r3.1 r3.2, rfl⟩
  · exact ⟨_, _, _, rfl, setIntField_roundtrip cfg _ (fun c v => { c with Spam.RaidTime := v }) r4.1 r4.2, rfl⟩
  · exact ⟨_, _, _, rfl, setIntField_roundtrip cfg _ (fun c v => { c with Spam.RaidSize := v }) r5.1 r5.2, rfl⟩
  · exact ⟨_, _, _, rfl, setIntField_roundtrip cfg _ (fun c v => { c with Spam.AutoSilence := v }) r6.1 r6.2, rfl⟩
  · exact ⟨_, _, _, rfl, setIntField_roundtrip cfg _ (fun c v => { c with Spam.LockdownDuration := v }) r7.1 r7.2, rfl⟩
  · exact ⟨_, _, _, rfl, setIntField_roundtrip cfg _ (fun c v => { c with Bucket.MaxItems := v }) r8.1 r8.2, rfl⟩
  · exact ⟨_, _, _, rfl, setIntField_roundtrip cfg _ (fun c v => { c with Bucket.MaxItemLength := v }) r9.1 r9.2, rfl⟩
  · exact ⟨_, _, _, rfl, setIntField_roundtrip cfg _ (fun c v => { c with Bucket.MaxFightHP := v }) r10.1 r10.2, rfl⟩
  · exact ⟨_, _, _, rfl, setIntField_roundtrip cfg _ (fun c v => { c with Bucket.MaxFightDamage := v }) r11.1 r11.2, rfl⟩
  · exact ⟨_, _, _, rfl, setIntField_roundtrip cfg _ (fun c v => { c with Markov.MaxPMlines := v }) r12.1 r12.2, rfl⟩
  · exact ⟨_, _, _, rfl, setIntField_roundtrip cfg _ (fun c v => { c with Markov.MaxLines := v }) r13.1 r13.2, rfl⟩
  · exact ⟨_, _, _, rfl, setIntField_roundtrip cfg _ (fun c v => { c with Markov.DefaultLines := v }) r14.1 r14.2, rfl⟩
  · exact ⟨_, _, _, rfl, setIntField_roundtrip cfg _ (fun c v => { c with Bored.Cooldown := v }) r15.1 r15.2, rfl⟩
  · exact ⟨_, _, _, rfl, setIntField_roundtrip cfg _ (fun c v => { c with Log.Cooldown := v }) r16.1 r16.2, rfl⟩
  · exact ⟨_, _, _, rfl, setIntField_roundtrip cfg _ (fun c v => { c with Witty.Cooldown := v }) r17.1 r17.2, rfl⟩
  · exact ⟨_, _, _, rfl, setIntField_roundtrip cfg _ (fun c v => { c with Miscellaneous.MaxSearchResults := v }) r18.1 r18.2, rfl⟩
  · exact ⟨_, _, _, rfl, setIntField_roundtrip cfg _ (fun c v => { c with Status.Cooldown := v }) r19.1 r19.2, rfl⟩
  -- floats
  · exact ⟨_, _, _, rfl, setFloatField_roundtrip cfg _ (fun c v => { c with Spam.ImagePressure := v }), rfl⟩
  · exact ⟨_, _, _, rfl, setFloatField_roundtrip cfg _ (fun c v => { c with Spam.PingPressure := v }), rfl⟩
  · exact ⟨_, _, _, rfl, setFloatField_roundtrip cfg _ (fun c v => { c with Spam.LengthPressure := v }), rfl⟩
  · exact ⟨_, _, _, rfl, setFloatField_roundtrip cfg _ (fun c v => { c with Spam.RepeatPressure := v }), rfl⟩
  · exact ⟨_, _, _, rfl, setFloatField_roundtrip cfg _ (fun c v => { c with Spam.LinePressure := v }), rfl⟩
  · exact ⟨_, _, _, rfl, setFloatField_roundtrip cfg _ (fun c v => { c with Spam.BasePressure := v }), rfl⟩
  · exact ⟨_, _, _, rfl, setFloatField_roundtrip cfg _ (fun c v => { c with Spam.PressureDecay := v }), rfl⟩
  · exact ⟨_, _, _, rfl, setFloatField_roundtrip cfg _ (fun c v => { c with Spam.MaxPressure := v }), rfl⟩

/-- C4 witness: the round trip at `Spam.MaxPressure` on the default store. -/
theorem get_set_get_roundtrip_witness :
    ∃ t msg cfg',
      getConfigPath DefaultConfig cSt "spam" "maxpressure" = [t] ∧
      SetConfig DefaultConfig cInfo ("spam" ++ "." ++ "maxpressure") t [] =
        (msg, true, cfg') ∧
      getConfigPath cfg' cSt "spam" "maxpressure" = [t] :=
  get_set_get_roundtrip ("spam", "maxpressure") (by decide) DefaultConfig cInfo cSt (by decide)

/-! ## C3: fatality of legacy sub-decode failures -/

def exceptIsOk {ε α : Type} : Except ε α → Bool
  | .ok _ => true
  | .error _ => false

theorem exceptIsOk_false {ε α : Type} (x : Except ε α) (h : exceptIsOk x = false) :
    ∃ e, x = .error e := by
  cases x with
  | error e => exact ⟨e, rfl⟩
  | ok a => simp [exceptIsOk] at h

/-- C3 counterexample: a version-5 blob whose current-shape decode succeeds but
whose flat legacy re-decode fails (such bytes exist, e.g.
`{"version":5,"witty":3}`: the key "witty" matches no current field tag, while
`legacyBotConfig.Witty` demands `map[string]string`).  `MigrateSettings`
returns the decode error: the failure inside the `Version < 10` step is fatal,
not a skip. -/
def c3blob : RawBlob where
  decodeCurrent := .ok { zeroConfig with Version := 5 }
  decodeLegacy :=
    .error "json: cannot unmarshal number into Go struct field legacyBotConfig.Witty of type map[string]string"
  decodeV10 := .ok ⟨⟨0, 0⟩⟩
  decodeV12 := .ok ⟨⟨0, 0⟩⟩
  decodeV13 := .ok ⟨⟨GoMap.nilM⟩⟩
  decodeV19 := .ok ⟨⟨GoMap.nilM⟩⟩
  decodeV20 := .ok ⟨GoMap.nilM, ⟨"", ""⟩, ⟨"", false⟩, ⟨0⟩, ⟨[]⟩, ⟨""⟩⟩

theorem migrate_legacy_decode_fatal_cex :
    c3blob.decodeCurrent = .ok { zeroConfig with Version := 5 } ∧
    MigrateSettings c3blob cEnv =
      .error "json: cannot unmarshal number into Go struct field legacyBotConfig.Witty of type map[string]string" ∧
    exceptIsOk (MigrateSettings c3blob cEnv) = false :=
  ⟨rfl, rfl, rfl⟩

/-- Agreement on the two command rate limits and the version: the facts the
non-fatality theorem threads through the version-gated steps. -/
def migSame (a b : BotConfig) : Prop :=
  a.Modules.CommandPerDuration = b.Modules.CommandPerDuration ∧
  a.Modules.CommandMaxDuration = b.Modules.CommandMaxDuration ∧
  a.Version = b.Version

theorem migSame_trans {a b c : BotConfig} (h1 : migSame a b) (h2 : migSame b c) :
    migSame a c :=
  ⟨h1.1.trans h2.1, h1.2.1.trans h2.2.1, h1.2.2.trans h2.2.2⟩

theorem applyV10_err (blob : RawBlob) (cfg : BotConfig) (e : String)
    (h : blob.decodeV10 = .error e) : applyV10 blob cfg = cfg := by
  unfold applyV10; rw [h]

theorem applyV12_err (blob : RawBlob) (env : MigrateEnv) (cfg : BotConfig) (e : String)
    (h : blob.decodeV12 = .error e) : applyV12 blob env cfg = v12defaults env cfg := by
  unfold applyV12; rw [h]

theorem applyV13_err (blob : RawBlob) (env : MigrateEnv) (cfg : BotConfig) (e : String)
    (h : blob.decodeV13 = .error e) : applyV13 blob env cfg = (cfg, []) := by
  unfold applyV13; rw [h]

theorem applyV19_err (blob : RawBlob) (cfg : BotConfig) (e : String)
    (h : blob.decodeV19 = .error e) :
    applyV19 blob cfg = (v19restrict (v19filtersInit cfg), []) := by
  unfold applyV19; rw [h]

theorem v20decoded_err (blob : RawBlob) (cfg : BotConfig) (e : String)
    (h : blob.decodeV20 = .error e) : v20decoded blob cfg = cfg := by
  unfold v20decoded; rw [h]

theorem step10_same (blob : RawBlob) (s : BotConfig × List Effect) (e : String)
    (h : blob.decodeV10 = .error e) : migSame (step10 blob s).1 s.1 := by
  unfold step10; rw [applyV10_err blob s.1 e h]; split <;> exact ⟨rfl, rfl, rfl⟩

theorem step11_same (s : BotConfig × List Effect) : migSame (step11 s).1 s.1 := by
  unfold step11; split <;> exact ⟨rfl, rfl, rfl⟩

theorem step12_same (blob : RawBlob) (env : MigrateEnv) (s : BotConfig × List Effect)
    (e : String) (h : blob.decodeV12 = .error e) :
    migSame (step12 blob env s).1 s.1 := by
  unfold step12; rw [applyV12_err blob env s.1 e h]; split <;> exact ⟨rfl, rfl, rfl⟩

theorem step13_same (blob : RawBlob) (env : MigrateEnv) (s : BotConfig × List Effect)
    (e : String) (h : blob.decodeV13 = .error e) :
    migSame (step13 blob env s).1 s.1 := by
  unfold step13; rw [applyV13_err blob env s.1 e h]; split <;> exact ⟨rfl, rfl, rfl⟩

theorem step14_same (s : BotConfig × List Effect) : migSame (step14 s).1 s.1 := by
  unfold step14; split <;> exact ⟨rfl, rfl, rfl⟩

theorem step15_same (s : BotConfig × List Effect) : migSame (step15 s).1 s.1 := by
  unfold step15; split <;> exact ⟨rfl, rfl, rfl⟩

theorem step16_same (s : BotConfig × List Effect) : migSame (step16 s).1 s.1 := by
  unfold step16; split <;> exact ⟨rfl, rfl, rfl⟩

theorem step17_same (s : BotConfig × List Effect) : migSame (step17 s).1 s.1 := by
  unfold step17; split <;> exact ⟨rfl, rfl, rfl⟩

theorem step18_same (env : MigrateEnv) (s : BotConfig × List Effect) :
    migSame (step18 env s).1 s.1 := by
  unfold step18; split <;> exact ⟨rfl, rfl, rfl⟩

theorem v19init_same (cfg : BotConfig) :
    migSame (v19restrict (v19filtersInit cfg)) cfg := by
  unfold v19filtersInit; split <;> exact ⟨rfl, rfl, rfl⟩

theorem step19_same (blob : RawBlob) (s : BotConfig × List Effect) (e : String)
    (h : blob.decodeV19 = .error e) : migSame (step19 blob s).1 s.1 := by
  unfold step19; rw [applyV19_err blob s.1 e h]
  split
  · exact v19init_same s.1
  · exact ⟨rfl, rfl, rfl⟩

theorem normModRole_same (cfg : BotConfig) : migSame (normModRole cfg) cfg := by
  unfold normModRole; split <;> exact ⟨rfl, rfl, rfl⟩

theorem normModChannel_same (cfg : BotConfig) : migSame (normModChannel cfg) cfg := by
  unfold normModChannel; split <;> exact ⟨rfl, rfl, rfl⟩

theorem normSilenceRole_same (cfg : BotConfig) : migSame (normSilenceRole cfg) cfg := by
  unfold normSilenceRole; split <;> exact ⟨rfl, rfl, rfl⟩

theorem normIgnoreRole_same (cfg : BotConfig) : migSame (normIgnoreRole cfg) cfg := by
  unfold normIgnoreRole; split <;> exact ⟨rfl, rfl, rfl⟩

theorem normWelcomeChannel_same (cfg : BotConfig) :
    migSame (normWelcomeChannel cfg) cfg := by
  unfold normWelcomeChannel; split <;> exact ⟨rfl, rfl, rfl⟩

theorem normNotifyChannel_same (cfg : BotConfig) :
    migSame (normNotifyChannel cfg) cfg := by
  unfold normNotifyChannel; split <;> exact ⟨rfl, rfl, rfl⟩

theorem normLogChannel_same (cfg : BotConfig) : migSame (normLogChannel cfg) cfg := by
  unfold normLogChannel; split <;> exact ⟨rfl, rfl, rfl⟩

theorem normBirthdayRole_same (cfg : BotConfig) :
    migSame (normBirthdayRole cfg) cfg := by
  unfold normBirthdayRole; split <;> exact ⟨rfl, rfl, rfl⟩

theorem applyV20Norms_same (cfg : BotConfig) : migSame (applyV20Norms cfg) cfg :=
  migSame_trans (normBirthdayRole_same _) (migSame_trans (normLogChannel_same _)
    (migSame_trans (normNotifyChannel_same _) (migSame_trans (normWelcomeChannel_same _)
      (migSame_trans (normIgnoreRole_same _) (migSame_trans (normSilenceRole_same _)
        (migSame_trans (normModChannel_same _) (normModRole_same cfg)))))))

theorem applyV20Renames_same (cfg : BotConfig) : migSame (applyV20Renames cfg) cfg :=
  ⟨rfl, rfl, rfl⟩

theorem step20_same (blob : RawBlob) (s : BotConfig × List Effect) (e : String)
    (h : blob.decodeV20 = .error e) : migSame (step20 blob s).1 s.1 := by
  unfold step20
  split
  · show migSame (applyV20 blob s.1) s.1
    have h1 : applyV20 blob s.1 = applyV20Renames (applyV20Norms s.1) := by
      unfold applyV20
      rw [v20decoded_err blob s.1 e h]
    rw [h1]
    exact migSame_trans (applyV20Renames_same _) (applyV20Norms_same s.1)
  · exact ⟨rfl, rfl, rfl⟩

/-- C3 amended: for blobs whose current decode yields version 10 or higher, a
failing legacy sub-decode in any of the version-gated steps (v10, v12, v13, v19,
v20) is non-fatal — `MigrateSettings` always returns a loaded store — and the
failed step's transformation is skipped, leaving the values of the initial
decode (shown for the v10 rate-limit fields); only the flat legacy decode of the
`Version < 10` step is fatal (see the counterexample). -/
theorem migrate_subdecode_nonfatal (blob : RawBlob) (env : MigrateEnv) (cfg0 : BotConfig)
    (hc : blob.decodeCurrent = .ok cfg0) (h10 : ¬ cfg0.Version < 10) :
    (∃ r, MigrateSettings blob env = .ok r) ∧
    (exceptIsOk blob.decodeV10 = false →
      exceptIsOk blob.decodeV12 = false → exceptIsOk blob.decodeV13 = false →
      exceptIsOk blob.decodeV19 = false → exceptIsOk blob.decodeV20 = false →
      ∃ r, MigrateSettings blob env = .ok r ∧
        r.config.Modules.CommandPerDuration = cfg0.Modules.CommandPerDuration ∧
        r.config.Modules.CommandMaxDuration = cfg0.Modules.CommandMaxDuration ∧
        r.config.Version = ConfigVersion) := by
  have hok : MigrateSettings blob env = .ok (migrateFrom10 blob env cfg0) := by
    unfold MigrateSettings
    rw [hc]
    dsimp only
    rw [if_neg h10]
  constructor
  · exact ⟨_, hok⟩
  · intro hx10 hx12 hx13 hx19 hx20
    obtain ⟨e10, hd10⟩ := exceptIsOk_false _ hx10
    obtain ⟨e12, hd12⟩ := exceptIsOk_false _ hx12
    obtain ⟨e13, hd13⟩ := exceptIsOk_false _ hx13
    obtain ⟨e19, hd19⟩ := exceptIsOk_false _ hx19
    obtain ⟨e20, hd20⟩ := exceptIsOk_false _ hx20
    have hpipe :
        migSame (step20 blob (step19 blob (step18 env (step17 (step16 (step15 (step14
          (step13 blob env (step12 blob env (step11 (step10 blob
            (cfg0, [])))))))))))).1 cfg0 := by
      refine migSame_trans (step20_same blob _ e20 hd20) ?_
      refine migSame_trans (step19_same blob _ e19 hd19) ?_
      refine migSame_trans (step18_same env _) ?_
      refine migSame_trans (step17_same _) ?_
      refine migSame_trans (step16_same _) ?_
      refine migSame_trans (step15_same _) ?_
      refine migSame_trans (step14_same _) ?_
      refine migSame_trans (step13_same blob env _ e13 hd13) ?_
      refine migSame_trans (step12_same blob env _ e12 hd12) ?_
      refine migSame_trans (step11_same _) ?_
      exact step10_same blob _ e10 hd10
    refine ⟨_, hok, ?_⟩
    unfold migrateFrom10 finalizeMig
    split
    · exact ⟨hpipe.1, hpipe.2.1, rfl⟩
    · rename_i hsame
      exact ⟨hpipe.1, hpipe.2.1, not_ne_iff.mp hsame⟩

/-- The store of the C3 witness: a pre-flat-default configuration at version 10
whose command rate limits differ from the zero record. -/
def c3cfg : BotConfig :=
  { zeroConfig with Version := 10, Modules.CommandPerDuration := 7 }

/-- The blob of the C3 witness: the current-shape decode succeeds while every
legacy sub-decode fails. -/
def c3wBlob : RawBlob where
  decodeCurrent := .ok c3cfg
  decodeLegacy := .error "legacy"
  decodeV10 := .error "v10"
  decodeV12 := .error "v12"
  decodeV13 := .error "v13"
  decodeV19 := .error "v19"
  decodeV20 := .error "v20"

/-- C3 witness: a version-10 blob all of whose later-step legacy decodes fail
still loads, keeping the initially decoded rate limits. -/
theorem migrate_subdecode_nonfatal_witness :
    (∃ r, MigrateSettings c3wBlob cEnv = .ok r) ∧
    (∃ r, MigrateSettings c3wBlob cEnv = .ok r ∧
      r.config.Modules.CommandPerDuration = c3cfg.Modules.CommandPerDuration ∧
      r.config.Modules.CommandMaxDuration = c3cfg.Modules.CommandMaxDuration ∧
      r.config.Version = ConfigVersion) := by
  have h := migrate_subdecode_nonfatal c3wBlob cEnv c3cfg rfl (by decide)
  exact ⟨h.1, h.2 rfl rfl rfl rfl rfl⟩

/-! ## C2: migration of a version-9-shaped blob -/

/-- The commands restricted by the version-11-and-later steps of the pipeline
(BotConfig.go:933-935, 1033-1059, 1100-1102), without the duplicate. -/
def v11PlusCommands : List String :=
  ["getaudit", "addrole", "removerole", "deleterole", "bannewcomers", "banraid",
   "getraid", "wipe", "getpressure", "addset", "removeset", "searchset"]

/-- Every command restricted from the `Version < 10` copy on, in restriction
order (the `newcommands` list of BotConfig.go:901-916 and then the per-step
lists; "bannewcomers" recurs in the v18 list as in the source). -/
def allRestricted : List String :=
  ["addevent", "addbirthday", "autosilence", "silence", "unsilence", "wipewelcome",
   "new", "addquote", "removequote", "removealias", "delete", "createpoll",
   "deletepoll", "addoption", "getaudit", "addrole", "removerole", "deleterole",
   "bannewcomers", "banraid", "getraid", "wipe", "bannewcomers", "getpressure",
   "addset", "removeset", "searchset"]

/-- A flat version-9 legacy store with one group of one member. -/
def c2d : LegacyBotConfig :=
  { zeroLegacy with
    Version := 9
    AlertRole := 5
    Groups := ⟨false, [("admins", ⟨false, [("100", true)]⟩)]⟩ }

/-- C2 counterexample: migrating the version-9-shaped blob of `c2d` — one legacy
group with one member — creates no role at all: the v13 step re-decodes the raw
blob expecting `basic.groups`, which the flat version-9 layout does not have, so
it sees zero groups; `Users.Roles` ends empty and the only side effect is the
re-save, with no role creation or member addition. -/
theorem migrate_v9_groups_dropped_cex :
    c2d.Groups.len = 1 ∧
    (MigrateSettings (v9Blob c2d) cEnv).map
        (fun r => (r.config.Users.Roles, r.effects)) =
      .ok (GoMap.empty, [Effect.saveConfig]) :=
  ⟨rfl, rfl⟩

/-- The blob of a version-9 flat store with alert role 5 and groups `g`. -/
def c2blobg (g : GoMap String (GoMap String Bool)) : RawBlob :=
  v9Blob { zeroLegacy with Version := 9, AlertRole := 5, Groups := g }

/-- The migration pipeline never reads the flat store's `Groups` field (the v13
step re-decodes the raw blob instead), so the outcome is definitionally
independent of it. -/
theorem c2_groups_irrel (g : GoMap String (GoMap String Bool)) :
    MigrateSettings (c2blobg g) cEnv = MigrateSettings (c2blobg GoMap.nilM) cEnv := rfl

/-- The migration outcome at the empty groups map, fully computed. -/
theorem c2_concrete :
    ∃ r,
      MigrateSettings (c2blobg GoMap.nilM) cEnv = .ok r ∧
      r.config.Users.Roles = GoMap.empty ∧
      (∀ c ∈ v11PlusCommands,
        r.config.Modules.CommandRoles.lookup c =
          some (GoMap.empty.set (NewDiscordRole 5) true)) ∧
      r.config.Version = ConfigVersion ∧
      r.effects = [Effect.saveConfig] := by
  refine ⟨_, rfl, rfl, ?_, rfl, rfl⟩
  intro c hc
  simp only [v11PlusCommands] at hc
  fin_cases hc <;> rfl

/-- C2 amended: migrating a version-9-shaped blob carrying any legacy groups
map `g` yields a loaded store whose `Users.Roles` is the empty map — the legacy
groups are dropped, no role is created and no member added, because the v13 step
re-decodes the blob expecting nested `basic.groups`, absent from the flat
layout — while every command of the version-11-and-later restriction lists is
mapped to the moderator role derived from the legacy alert role (here 5), the
final version is `ConfigVersion`, and the store is re-saved. -/
theorem migrate_v9_blob (g : GoMap String (GoMap String Bool)) :
    ∃ r,
      MigrateSettings (c2blobg g) cEnv = .ok r ∧
      r.config.Users.Roles = GoMap.empty ∧
      (∀ c ∈ v11PlusCommands,
        r.config.Modules.CommandRoles.lookup c =
          some (GoMap.empty.set (NewDiscordRole 5) true)) ∧
      r.config.Version = ConfigVersion ∧
      r.effects = [Effect.saveConfig] := by
  rw [c2_groups_irrel g]
  exact c2_concrete

/-- C2 witness: the amended theorem at the concrete store of the counterexample,
specialised to the "getaudit" restriction. -/
theorem migrate_v9_blob_witness :
    ∃ r,
      MigrateSettings (v9Blob c2d) cEnv = .ok r ∧
      r.config.Users.Roles = GoMap.empty ∧
      r.config.Modules.CommandRoles.lookup "getaudit" =
        some (GoMap.empty.set (NewDiscordRole 5) true) ∧
      r.config.Version = ConfigVersion ∧
      r.effects = [Effect.saveConfig] := by
  obtain ⟨r, h1, h2, h3, h4, h5⟩ :=
    migrate_v9_blob ⟨false, [("admins", ⟨false, [("100", true)]⟩)]⟩
  exact ⟨r, h1, h2, h3 "getaudit" (by decide), h4, h5⟩

end SB
